import Mathlib

/-!
Shallow embedding of the TaraVel realtime relay server (src/server.js,
the `@version 10.0.1` server that starts after the first document
separator; all line numbers below refer to that concatenated file).

JavaScript numbers are modelled as rationals (`ℚ`), timestamps as `Nat`
milliseconds, and possibly-`undefined` values as `Option`.  JavaScript
truthiness on numbers (`0`, `NaN` falsy) is modelled by `truthyQ` /
`truthyNat`; `??` is `Option.or`; `||` on strings uses `truthyStr`.
`Math.sqrt` is irrational-valued, so `calculateDistance` keeps the
squared radicand symbolically (`JsDist.sqrtOf`) and the only use of the
distance — comparison against the nonnegative threshold — is embedded
through the monotone equivalence `Real.sqrt s > t ↔ t * t < s` (for
`0 ≤ t`, `0 ≤ s`).
-/

unseal Rat.mul Rat.add Rat.sub Rat.inv Rat.ofScientific

namespace TaraVel

/-- Configuration constants (src/server.js lines 266-274). -/
def STALE_DRIVER_TIMEOUT : Nat := 5 * 60 * 1000

def DISCONNECT_GRACE_PERIOD : Nat := 30 * 1000

def LOCATION_CHANGE_THRESHOLD : ℚ := 1 / 10000

def LOCATION_UPDATE_INTERVAL : Nat := 15000

def MAX_LOCATION_UPDATES_PER_MINUTE : Nat := 10

def MAX_SNAPSHOT_DRIVERS : Nat := 50

def MAX_BOARDING_PASSENGERS : Int := 20

/-- JavaScript truthiness of a possibly-undefined number (`0` is falsy). -/
def truthyQ : Option ℚ → Bool
  | none => false
  | some q => q != 0

/-- JavaScript truthiness of a possibly-undefined timestamp (`0` is falsy). -/
def truthyNat : Option Nat → Bool
  | none => false
  | some n => n != 0

/-- JavaScript truthiness of a possibly-undefined string (`""` is falsy). -/
def truthyStr : Option String → Bool
  | none => false
  | some s => s != ""

/-- JavaScript `a || b` on possibly-undefined strings. -/
def jsOrStr (a b : Option String) : Option String :=
  if truthyStr a then a else b

/-- JavaScript `String.prototype.trim`: strip leading and trailing
whitespace. -/
def jsTrimStr (s : String) : String :=
  ⟨((s.data.dropWhile Char.isWhitespace).reverse.dropWhile
      Char.isWhitespace).reverse⟩

/-- Association-list lookup, modelling JavaScript object property read. -/
def lookupA {α : Type} : List (String × α) → String → Option α
  | [], _ => none
  | p :: rest, k => if p.1 == k then some p.2 else lookupA rest k

/-- Association-list insert, modelling JavaScript property assignment. -/
def insertA {α : Type} (l : List (String × α)) (k : String) (v : α) :
    List (String × α) :=
  (k, v) :: l.filter (fun p => p.1 != k)

/-- Association-list erase, modelling JavaScript `delete obj[k]`. -/
def eraseA {α : Type} (l : List (String × α)) (k : String) :
    List (String × α) :=
  l.filter (fun p => p.1 != k)

theorem lookupA_filter_ne {α : Type} (l : List (String × α)) (k k' : String)
    (h : k' ≠ k) :
    lookupA (l.filter (fun p => p.1 != k)) k' = lookupA l k' := by
  induction l with
  | nil => rfl
  | cons p rest ih =>
    by_cases hp : p.1 = k
    · have h1 : (p.1 != k) = false := by simp [hp]
      have h2 : (p.1 == k') = false := by
        simp only [beq_eq_false_iff_ne, ne_eq, hp]
        exact fun he => h he.symm
      simp [List.filter_cons, h1, lookupA, h2, ih]
    · have h1 : (p.1 != k) = true := by simp [hp]
      by_cases hq : p.1 = k'
      · simp [List.filter_cons, h1, lookupA, hq, h]
      · have h2 : (p.1 == k') = false := by simp [hq]
        simp [List.filter_cons, h1, lookupA, h2, ih]

theorem lookupA_insert_self {α : Type} (l : List (String × α)) (k : String)
    (v : α) : lookupA (insertA l k v) k = some v := by
  simp [lookupA, insertA]

theorem lookupA_insert_ne {α : Type} (l : List (String × α)) (k k' : String)
    (v : α) (h : k' ≠ k) : lookupA (insertA l k v) k' = lookupA l k' := by
  have hk : (k == k') = false := by
    simp only [beq_eq_false_iff_ne, ne_eq]
    exact fun he => h he.symm
  simp only [insertA, lookupA, hk, if_neg (by simp [hk] : ¬((k == k') = true))]
  exact lookupA_filter_ne l k k' h

theorem lookupA_erase_self {α : Type} (l : List (String × α)) (k : String) :
    lookupA (eraseA l k) k = none := by
  induction l with
  | nil => rfl
  | cons p rest ih =>
    by_cases hp : p.1 = k
    · have h1 : (p.1 != k) = false := by simp [hp]
      simp [eraseA, List.filter_cons, h1] at ih ⊢
      exact ih
    · have h1 : (p.1 != k) = true := by simp [hp]
      have h2 : (p.1 == k) = false := by simp [hp]
      simp [eraseA, List.filter_cons, h1, lookupA, h2] at ih ⊢
      exact ih

theorem lookupA_erase_ne {α : Type} (l : List (String × α)) (k k' : String)
    (h : k' ≠ k) : lookupA (eraseA l k) k' = lookupA l k' :=
  lookupA_filter_ne l k k' h

/-- Result of `calculateDistance`: either JavaScript `Infinity` (some
argument was falsy) or the value `Math.sqrt sq`, kept as its radicand. -/
inductive JsDist where
  | inf : JsDist
  | sqrtOf (sq : ℚ) : JsDist
deriving DecidableEq, Repr

/-- `calculateDistance` (src/server.js lines 335-340): returns `Infinity`
when any coordinate is falsy (i.e. equal to `0`), otherwise the Euclidean
length of the coordinate delta. -/
def calculateDistance (lat1 lng1 lat2 lng2 : ℚ) : JsDist :=
  if lat1 = 0 ∨ lng1 = 0 ∨ lat2 = 0 ∨ lng2 = 0 then .inf
  else .sqrtOf (|lat1 - lat2| * |lat1 - lat2| + |lng1 - lng2| * |lng1 - lng2|)

/-- Comparison `distance > t` for a nonnegative threshold `t`.  `Infinity`
exceeds everything; `Math.sqrt sq > t` is equivalent to `t * t < sq`. -/
def JsDist.gtQ : JsDist → ℚ → Bool
  | .inf, _ => true
  | .sqrtOf sq, t => decide (t * t < sq)

/-- One entry of a driver's `waitingPassengers` map (src/server.js
lines 1691-1697). -/
structure WaitingEntry where
  userAccountId : String
  lat : ℚ
  lng : ℚ
  passengerCount : Nat
  pingedAt : Nat
deriving DecidableEq, Repr

/-- In-memory driver record (the values stored in `drivers[accountId]`,
src/server.js lines 1115-1139 and the other driver handlers). -/
structure DriverRec where
  accountId : String
  organizationName : Option String
  destinationName : Option String
  destinationLat : Option ℚ
  destinationLng : Option ℚ
  lat : Option ℚ
  lng : Option ℚ
  geometry : Option String
  passengerCount : Option ℚ
  maxCapacity : Option ℚ
  lastUpdated : Nat
  socketId : Option String
  disconnected : Bool
  disconnectedAt : Option Nat
  reconnectAttempts : Nat
  lastLat : Option ℚ
  lastLng : Option ℚ
  lastBroadcastTime : Option Nat
  waitingPassengers : List (String × WaitingEntry)
deriving DecidableEq, Repr

/-- `timeSinceLastBroadcast` (src/server.js line 1107): `none` models
`Infinity` (no prior broadcast, or a falsy stored timestamp). -/
def timeSinceLastBroadcast (prev : Option DriverRec) (now : Nat) : Option Nat :=
  match prev with
  | none => none
  | some d =>
    match d.lastBroadcastTime with
    | none => none
    | some t => if t = 0 then none else some (now - t)

/-- `isIntervalUpdate` (src/server.js line 1112). -/
def isIntervalUpdate (prev : Option DriverRec) (now : Nat) : Bool :=
  match timeSinceLastBroadcast prev now with
  | none => true
  | some ts => decide (LOCATION_UPDATE_INTERVAL ≤ ts)

/-- `locationChanged` (src/server.js line 1110): the two `!prevDriver.last*`
tests are JavaScript truthiness, so a stored anchor equal to `0` counts as
missing. -/
def locationChanged (prev : Option DriverRec) (la ln : ℚ) : Bool :=
  match prev with
  | none => true
  | some d =>
    !truthyQ d.lastLat || !truthyQ d.lastLng ||
      (calculateDistance la ln (d.lastLat.getD 0) (d.lastLng.getD 0)).gtQ
        LOCATION_CHANGE_THRESHOLD

/-- `passengerDataChanged` (src/server.js line 1111): strict `!==` between
the raw payload values and the stored ones (`undefined` differs from any
number). -/
def passengerDataChanged (prev : Option DriverRec) (pc mc : Option ℚ) : Bool :=
  pc != prev.bind (fun d => d.passengerCount) ||
    mc != prev.bind (fun d => d.maxCapacity)

/-- `shouldBroadcast` (src/server.js line 1113). -/
def shouldBroadcast (prev : Option DriverRec) (la ln : ℚ) (pc mc : Option ℚ)
    (now : Nat) : Bool :=
  prev.isNone || locationChanged prev la ln || passengerDataChanged prev pc mc
    || isIntervalUpdate prev now

/-- Payload of an `updateLocation` message (src/server.js lines 1041-1051),
after the string-to-number coercion of `lat`/`lng`. -/
structure LocPayload where
  accountId : Option String
  organizationName : Option String
  destinationName : Option String
  destinationLat : Option ℚ
  destinationLng : Option ℚ
  lat : Option ℚ
  lng : Option ℚ
  passengerCount : Option ℚ
  maxCapacity : Option ℚ
deriving DecidableEq, Repr

/-- `validateLocationData` (src/server.js lines 526-539). -/
def validateLocationData (p : LocPayload) : Bool :=
  match p.accountId with
  | none => false
  | some aid =>
    aid != "" &&
      match p.lat, p.lng with
      | some la, some ln =>
        decide (-90 ≤ la) && decide (la ≤ 90) &&
          decide (-180 ≤ ln) && decide (ln ≤ 180)
      | _, _ => false

/-- The driver-record merge performed by `updateLocation`
(src/server.js lines 1115-1139).  `prev` is the record after the
reconnection fix-up; `la`/`ln` are the coerced coordinates; `sb` is
`shouldBroadcast`. -/
def mergeDriver (prev : Option DriverRec) (p : LocPayload) (aid : String)
    (la ln : ℚ) (now : Nat) (sockId : String) (sb : Bool) : DriverRec :=
  { accountId := aid
    organizationName :=
      jsOrStr p.organizationName
        (jsOrStr (prev.bind (fun d => d.organizationName))
          (some "No Organization"))
    destinationName :=
      jsOrStr p.destinationName
        (jsOrStr (prev.bind (fun d => d.destinationName)) (some "Unknown"))
    destinationLat :=
      (p.destinationLat).or (prev.bind (fun d => d.destinationLat))
    destinationLng :=
      (p.destinationLng).or (prev.bind (fun d => d.destinationLng))
    lat := some la
    lng := some ln
    geometry := prev.bind (fun d => d.geometry)
    passengerCount :=
      some (((p.passengerCount).or
        (prev.bind (fun d => d.passengerCount))).getD 0)
    maxCapacity :=
      some (((p.maxCapacity).or (prev.bind (fun d => d.maxCapacity))).getD 0)
    lastUpdated := now
    socketId := some sockId
    disconnected := false
    disconnectedAt := none
    reconnectAttempts := (prev.map (fun d => d.reconnectAttempts)).getD 0
    lastLat := some (if sb then la else (prev.bind (fun d => d.lastLat)).getD la)
    lastLng := some (if sb then ln else (prev.bind (fun d => d.lastLng)).getD ln)
    lastBroadcastTime :=
      if sb then some now else prev.bind (fun d => d.lastBroadcastTime)
    waitingPassengers := (prev.map (fun d => d.waitingPassengers)).getD [] }

/-- Rate-limit bucket (src/server.js line 354: `{ count, resetTime }`). -/
structure Bucket where
  count : Nat
  resetTime : Nat
deriving DecidableEq, Repr

/-- `checkRateLimit` (src/server.js lines 345-366).  Returns the decision
together with the updated `rateLimitMap`; a rejected event leaves the map
untouched. -/
def checkRateLimit (m : List (String × Bucket)) (sockId : String) (now : Nat)
    (maxPerMinute : Nat) : Bool × List (String × Bucket) :=
  match lookupA m sockId with
  | none => (true, insertA m sockId ⟨1, now + 60000⟩)
  | some l =>
    if l.resetTime < now then (true, insertA m sockId ⟨1, now + 60000⟩)
    else if maxPerMinute ≤ l.count then (false, m)
    else (true, insertA m sockId ⟨l.count + 1, l.resetTime⟩)

/-- Connection roles. -/
inductive Role where
  | user : Role
  | driver : Role
deriving DecidableEq, Repr

/-- A transport connection: its socket id and the role recorded on the
socket object (`socket.role`). -/
structure Conn where
  id : String
  role : Option Role
deriving DecidableEq, Repr

/-- Session record (src/server.js lines 884-889). -/
structure SessionRec where
  accountId : Option String
  role : Role
  createdAt : Nat
  lastActivity : Nat
deriving DecidableEq, Repr

/-- User record (src/server.js lines 924-931). -/
structure UserRec where
  accountId : String
  socketId : Option String
  lat : Option ℚ
  lng : Option ℚ
  lastActivity : Nat
  connectedAt : Nat
  disconnected : Bool
  disconnectedAt : Option Nat
deriving DecidableEq, Repr

/-- Server-to-client events.  Payloads carry the fields the claims are
about; purely informational snapshot payload fields are condensed to the
account-id lists they enumerate. -/
inductive SEvent where
  | sessionAssigned (sessionKey : String)
  | driversSnapshot (accountIds : List String) (total : Nat) (limited : Bool)
  | currentData (accountIds : List String)
  | locationUpdate (accountId : String) (lat lng passengerCount maxCapacity : ℚ)
  | passengerUpdateEv (accountId : String) (passengerCount maxCapacity : ℚ)
  | driverStateRestored (accountId : String) (passengerCount maxCapacity : ℚ)
      (lat lng : Option ℚ)
  | driverRemoved (accountId : String) (timestamp : Nat)
  | connectionReplaced
  | pingReceived (userAccountId : String) (lat lng : ℚ)
      (passengerCount : Nat) (timestamp : Nat)
  | pingRemoved (userAccountId : String) (timestamp : Nat)
      (reason : Option String)
  | errorMsg (message : String)
deriving DecidableEq, Repr

/-- A delivery: unicast to one socket, or broadcast to the `user` room
(`io.to("user").emit`). -/
inductive Emit where
  | toSocket (sockId : String) (ev : SEvent)
  | toUsers (ev : SEvent)
deriving DecidableEq, Repr

/-- The in-memory data stores of the server (src/server.js lines 290-301). -/
structure ServerState where
  drivers : List (String × DriverRec)
  users : List (String × UserRec)
  socketToAccountId : List (String × String)
  accountIdToSocketId : List (String × String)
  sessionKeyToSocketId : List (String × String)
  socketIdToSessionKey : List (String × String)
  sessions : List (String × SessionRec)
  rateLimitMap : List (String × Bucket)
  pendingStateRestore : List String
deriving DecidableEq, Repr

/-- The empty initial state. -/
def ServerState.init : ServerState :=
  ⟨[], [], [], [], [], [], [], [], []⟩

/-- `Set.add` on the `pendingStateRestore` set. -/
def addSet (l : List String) (a : String) : List String :=
  if l.contains a then l else a :: l

/-- `Set.delete` on the `pendingStateRestore` set. -/
def delSet (l : List String) (a : String) : List String :=
  l.filter (fun x => x != a)

/-- `disconnectOldSocket` (src/server.js lines 553-577).  `live` is the set
of socket ids that are present in `io.sockets.sockets` and connected.
Returns the new state, the emitted events, and the socket ids the server
force-closed.  When the target socket is not live the function does
nothing at all. -/
def disconnectOldSocket (live : List String) (st : ServerState)
    (oldSocketId : String) : ServerState × List Emit × List String :=
  if live.contains oldSocketId then
    let st1 :=
      match lookupA st.socketIdToSessionKey oldSocketId with
      | some sk =>
        { st with
          sessionKeyToSocketId := eraseA st.sessionKeyToSocketId sk
          socketIdToSessionKey := eraseA st.socketIdToSessionKey oldSocketId
          sessions := eraseA st.sessions sk }
      | none => st
    (st1, [.toSocket oldSocketId .connectionReplaced], [oldSocketId])
  else (st, [], [])

/-- `emitDriverStateRestoredIfPending` (src/server.js lines 309-330). -/
def emitRestoreIfPending (pending : List String)
    (ds : List (String × DriverRec)) (sockId : String) (aid : String) :
    List Emit × List String :=
  if pending.contains aid then
    match lookupA ds aid with
    | some d =>
      ([.toSocket sockId (.driverStateRestored aid (d.passengerCount.getD 0)
          (d.maxCapacity.getD 0) d.lat d.lng)],
        delSet pending aid)
    | none => ([], pending)
  else ([], pending)

/-- The in-place reconnection fix-up applied to `prevDriver`
(src/server.js lines 1060-1070): on reconnect the disconnect markers are
cleared and `reconnectAttempts` incremented. -/
def reconnectFixup : Option DriverRec → Option DriverRec
  | none => none
  | some d =>
    if d.disconnected then
      some { d with disconnected := false, disconnectedAt := none,
                    reconnectAttempts := d.reconnectAttempts + 1 }
    else some d

/-- The index side effects of the reconnection block shared by the driver
handlers (src/server.js lines 1059-1102 and the analogous blocks in
`destinationUpdate` / `routeUpdate` / `passengerUpdate`): a lingering old
socket reference is purged from `socketToAccountId`, and a still-live old
socket of a non-disconnected record is preempted. -/
def reconnectSideEffects (live : List String) (st : ServerState)
    (connId : String) (prev : Option DriverRec) :
    ServerState × List Emit × List String :=
  match prev with
  | none => (st, [], [])
  | some d =>
    if d.disconnected then
      match d.socketId with
      | some s =>
        if s != connId then
          ({ st with socketToAccountId := eraseA st.socketToAccountId s },
            [], [])
        else (st, [], [])
      | none => (st, [], [])
    else
      match d.socketId with
      | some s =>
        if s != connId then
          let dos := disconnectOldSocket live st s
          ({ dos.1 with
              socketToAccountId := eraseA dos.1.socketToAccountId s },
            dos.2.1, dos.2.2)
        else (st, [], [])
      | none => (st, [], [])

/-- Result of a connection-scoped handler: new state, emitted events,
closed sockets, and the (possibly re-roled) connection. -/
structure HOut where
  state : ServerState
  emits : List Emit
  closed : List String
  conn : Conn
deriving DecidableEq, Repr

/-- `updateLocation` handler (src/server.js lines 1012-1195). -/
def updateLocationH (live : List String) (st : ServerState) (conn : Conn)
    (p : LocPayload) (now : Nat) : HOut :=
  if !validateLocationData p then
    ⟨st, [.toSocket conn.id (.errorMsg "Invalid location data")], [], conn⟩
  else
    let rlr := checkRateLimit st.rateLimitMap conn.id now
      MAX_LOCATION_UPDATES_PER_MINUTE
    let st0 := { st with rateLimitMap := rlr.2 }
    if !rlr.1 then
      ⟨st0, [.toSocket conn.id
        (.errorMsg "Rate limit exceeded. Please slow down location updates.")],
        [], conn⟩
    else
      match p.accountId, p.lat, p.lng with
      | some aid, some la, some ln =>
        let prev := lookupA st0.drivers aid
        let prev2 := reconnectFixup prev
        let rse := reconnectSideEffects live st0 conn.id prev
        let st1 := rse.1
        let em1 := rse.2.1
        let cl1 := rse.2.2
        let st2 := { st1 with
          accountIdToSocketId := insertA st1.accountIdToSocketId aid conn.id }
        let sb := shouldBroadcast prev2 la ln p.passengerCount p.maxCapacity now
        let merged := mergeDriver prev2 p aid la ln now conn.id sb
        let st3 := { st2 with
          drivers := insertA st2.drivers aid merged
          socketToAccountId := insertA st2.socketToAccountId conn.id aid
          accountIdToSocketId := insertA st2.accountIdToSocketId aid conn.id }
        let rp := emitRestoreIfPending st3.pendingStateRestore st3.drivers
          conn.id aid
        let st4 := { st3 with pendingStateRestore := rp.2 }
        let emB := if sb then
            [Emit.toUsers (.locationUpdate aid la ln
              (merged.passengerCount.getD 0) (merged.maxCapacity.getD 0))]
          else []
        ⟨st4, em1 ++ rp.1 ++ emB, cl1, conn⟩
      | _, _, _ => ⟨st0, [], [], conn⟩

/-- `passengerUpdate` handler (src/server.js lines 1344-1417). -/
def passengerUpdateH (live : List String) (st : ServerState) (conn : Conn)
    (accountId : Option String) (pc mc : Option ℚ) (now : Nat) : HOut :=
  if !truthyStr accountId then
    ⟨st, [.toSocket conn.id (.errorMsg "Missing accountId")], [], conn⟩
  else
    match accountId with
    | none => ⟨st, [.toSocket conn.id (.errorMsg "Missing accountId")], [], conn⟩
    | some aid =>
      let prev := lookupA st.drivers aid
      let prev2 := reconnectFixup prev
      let rse := reconnectSideEffects live st conn.id prev
      let st1 := rse.1
      let em1 := rse.2.1
      let cl1 := rse.2.2
      let newPc := ((pc.or (prev.bind (fun d => d.passengerCount))).getD 0)
      let newMc := ((mc.or (prev.bind (fun d => d.maxCapacity))).getD 0)
      let prevPc := (prev.bind (fun d => d.passengerCount)).getD 0
      let prevMc := (prev.bind (fun d => d.maxCapacity)).getD 0
      let valuesChanged := newPc != prevPc || newMc != prevMc
      let merged : DriverRec :=
        match prev2 with
        | some d =>
          { d with accountId := aid, passengerCount := some newPc,
                   maxCapacity := some newMc, lastUpdated := now,
                   socketId := some conn.id, disconnected := false,
                   disconnectedAt := none }
        | none =>
          { accountId := aid, organizationName := none,
            destinationName := none, destinationLat := none,
            destinationLng := none, lat := none, lng := none,
            geometry := none, passengerCount := some newPc,
            maxCapacity := some newMc, lastUpdated := now,
            socketId := some conn.id, disconnected := false,
            disconnectedAt := none, reconnectAttempts := 0, lastLat := none,
            lastLng := none, lastBroadcastTime := none,
            waitingPassengers := [] }
      let st2 := { st1 with
        drivers := insertA st1.drivers aid merged
        socketToAccountId := insertA st1.socketToAccountId conn.id aid
        accountIdToSocketId := insertA st1.accountIdToSocketId aid conn.id }
      let rp := emitRestoreIfPending st2.pendingStateRestore st2.drivers
        conn.id aid
      let st3 := { st2 with pendingStateRestore := rp.2 }
      let emB := if valuesChanged then
          [Emit.toUsers (.passengerUpdateEv aid newPc newMc)]
        else []
      ⟨st3, em1 ++ rp.1 ++ emB, cl1, conn⟩

/-- Insertion step used to model the snapshot sort. -/
def insertSorted (le : DriverRec → DriverRec → Bool) (d : DriverRec) :
    List DriverRec → List DriverRec
  | [] => [d]
  | e :: rest => if le d e then d :: e :: rest else e :: insertSorted le d rest

/-- Sort used by the snapshot truncation. -/
def sortByRec (le : DriverRec → DriverRec → Bool) (l : List DriverRec) :
    List DriverRec :=
  l.foldr (insertSorted le) []

/-- The drivers included in a snapshot (filter at src/server.js
lines 932-935: a truthy `accountId` and a truthy `lat` or `geometry`). -/
def snapshotDrivers (ds : List (String × DriverRec)) : List DriverRec :=
  (ds.map Prod.snd).filter
    (fun d => d.accountId != "" && (truthyQ d.lat || truthyStr d.geometry))

/-- The `driversSnapshot` event composed at src/server.js lines 932-975
(payload condensed to the listed account ids). -/
def driversSnapshotEvent (ds : List (String × DriverRec)) : SEvent :=
  let arr := snapshotDrivers ds
  let total := arr.length
  let limited := decide (0 < MAX_SNAPSHOT_DRIVERS) &&
    decide (MAX_SNAPSHOT_DRIVERS < total)
  if limited then
    let sorted := sortByRec (fun a b => decide (b.lastUpdated ≤ a.lastUpdated)) arr
    .driversSnapshot ((sorted.take MAX_SNAPSHOT_DRIVERS).map
      (fun d => d.accountId)) total true
  else
    .driversSnapshot (arr.map (fun d => d.accountId)) total false

/-- The `currentData` late-joiner event (src/server.js lines 977-1005). -/
def currentDataEvent (ds : List (String × DriverRec)) : SEvent :=
  .currentData ((snapshotDrivers ds).map (fun d => d.accountId))

/-- The raw argument of a `registerRole` message: the source accepts a bare
role string or an object `{ role, accountId }` (src/server.js
lines 830-850). -/
inductive RegisterData where
  | str (role : String)
  | obj (role : Option String) (accountId : Option String)
  | invalid
deriving DecidableEq, Repr

/-- Role validation in `registerRole` (src/server.js line 853: only the
exact strings "user" and "driver" are accepted). -/
def parseRole (r : Option String) : Option Role :=
  if r == some "user" then some .user
  else if r == some "driver" then some .driver
  else none

/-- `registerRole` handler (src/server.js lines 820-1007).  `freshKey` is
the session key minted by `generateSessionKey` (time- and random-based,
passed in as a parameter here). -/
def registerRoleH (live : List String) (st : ServerState) (conn : Conn)
    (data : RegisterData) (freshKey : String) (now : Nat) : HOut :=
  let extracted : Option (Option String × Option String) :=
    match data with
    | .str r => some (some r, none)
    | .obj r a => some (r.map jsTrimStr, a)
    | .invalid => none
  match extracted with
  | none => ⟨st, [], [], conn⟩
  | some (roleOpt, accountId) =>
    match parseRole roleOpt with
    | none => ⟨st, [], [], conn⟩
    | some role =>
      if role == .user && !truthyStr accountId then
        ⟨st, [.toSocket conn.id
          (.errorMsg "accountId is required for user registration")], [], conn⟩
      else
        let (st1, em1, cl1) :=
          match accountId with
          | some aid =>
            if aid != "" then
              let (stA, emA, clA) :=
                match lookupA st.accountIdToSocketId aid with
                | some old =>
                  if old != conn.id then disconnectOldSocket live st old
                  else (st, [], [])
                | none => (st, [], [])
              ({ stA with
                  accountIdToSocketId :=
                    insertA stA.accountIdToSocketId aid conn.id
                  socketToAccountId :=
                    insertA stA.socketToAccountId conn.id aid }, emA, clA)
            else (st, [], [])
          | none => (st, [], [])
        let (st2, em2, cl2) :=
          match lookupA st1.sessionKeyToSocketId freshKey with
          | some old =>
            if old != conn.id then disconnectOldSocket live st1 old
            else (st1, [], [])
          | none => (st1, [], [])
        let st3 := { st2 with
          sessions := insertA st2.sessions freshKey
            { accountId := if truthyStr accountId then accountId else none
              role := role, createdAt := now, lastActivity := now }
          sessionKeyToSocketId :=
            insertA st2.sessionKeyToSocketId freshKey conn.id
          socketIdToSessionKey :=
            insertA st2.socketIdToSessionKey conn.id freshKey }
        let conn' := { conn with role := some role }
        let st4 := { st3 with rateLimitMap := eraseA st3.rateLimitMap conn.id }
        let emSession := [Emit.toSocket conn.id (.sessionAssigned freshKey)]
        let st5 :=
          match role, accountId with
          | .driver, some aid =>
            if aid != "" then
              match lookupA st4.drivers aid with
              | some d =>
                { st4 with
                  drivers := insertA st4.drivers aid
                    { d with socketId := some conn.id, disconnected := false,
                             disconnectedAt := none }
                  pendingStateRestore := addSet st4.pendingStateRestore aid }
              | none => st4
            else st4
          | _, _ => st4
        match role, accountId with
        | .user, some aid =>
          let st6 := { st5 with
            users := insertA st5.users aid
              ({ accountId := aid, socketId := some conn.id, lat := none,
                 lng := none, lastActivity := now, connectedAt := now,
                 disconnected := false, disconnectedAt := none }) }
          ⟨st6,
            em1 ++ em2 ++ emSession ++
              [.toSocket conn.id (driversSnapshotEvent st6.drivers),
               .toSocket conn.id (currentDataEvent st6.drivers)],
            cl1 ++ cl2, conn'⟩
        | _, _ => ⟨st5, em1 ++ em2 ++ emSession, cl1 ++ cl2, conn'⟩

/-- `resumeSession` handler (src/server.js lines 691-813). -/
def resumeSessionH (live : List String) (st : ServerState) (conn : Conn)
    (sessionKey : String) (now : Nat) : HOut :=
  if sessionKey == "" then
    ⟨st, [.toSocket conn.id (.errorMsg "Invalid session key")], [], conn⟩
  else
    match lookupA st.sessions sessionKey with
    | none =>
      ⟨st, [.toSocket conn.id
        (.errorMsg "Session not found. Please register again.")], [], conn⟩
    | some ses =>
      let (st1, em1, cl1) :=
        match lookupA st.sessionKeyToSocketId sessionKey with
        | some old =>
          if old != conn.id then disconnectOldSocket live st old
          else (st, [], [])
        | none => (st, [], [])
      let st2 := { st1 with
        sessionKeyToSocketId :=
          insertA st1.sessionKeyToSocketId sessionKey conn.id
        socketIdToSessionKey :=
          insertA st1.socketIdToSessionKey conn.id sessionKey
        sessions := insertA st1.sessions sessionKey
          { ses with lastActivity := now } }
      let (st3, em2, cl2) :=
        match ses.accountId with
        | some aid =>
          if aid != "" then
            let (stA, emA, clA) :=
              match lookupA st2.accountIdToSocketId aid with
              | some old =>
                if old != conn.id then disconnectOldSocket live st2 old
                else (st2, [], [])
              | none => (st2, [], [])
            ({ stA with
                accountIdToSocketId :=
                  insertA stA.accountIdToSocketId aid conn.id
                socketToAccountId :=
                  insertA stA.socketToAccountId conn.id aid }, emA, clA)
          else (st2, [], [])
        | none => (st2, [], [])
      let conn' := { conn with role := some ses.role }
      match ses.role with
      | .driver =>
        let st4 :=
          match ses.accountId with
          | some aid =>
            if aid != "" then
              match lookupA st3.drivers aid with
              | some d =>
                { st3 with
                  drivers := insertA st3.drivers aid
                    { d with socketId := some conn.id, disconnected := false,
                             disconnectedAt := none }
                  pendingStateRestore := addSet st3.pendingStateRestore aid }
              | none => st3
            else st3
          | none => st3
        ⟨st4, em1 ++ em2, cl1 ++ cl2, conn'⟩
      | .user =>
        let st4 :=
          match ses.accountId with
          | some aid =>
            if aid != "" then
              match lookupA st3.users aid with
              | some u =>
                { st3 with
                  users := insertA st3.users aid
                    ({ u with lastActivity := now, socketId := some conn.id,
                              disconnected := false,
                              disconnectedAt := none }) }
              | none => st3
            else st3
          | none => st3
        ⟨st4, em1 ++ em2 ++
          [.toSocket conn.id (driversSnapshotEvent st4.drivers)],
          cl1 ++ cl2, conn'⟩

/-- The waiting-passenger prune loop inside `cleanup` (src/server.js
lines 632-650): when a user disconnects, their entry is removed from every
driver's `waitingPassengers`, and each affected live driver is sent
`pingRemoved { reason: "user_disconnected" }`. -/
def pruneWaiting (live : List String) (accountId : String)
    (a2s : List (String × String)) (now : Nat) :
    List (String × DriverRec) → List (String × DriverRec) × List Emit
  | [] => ([], [])
  | (daid, d) :: rest =>
    let pr := pruneWaiting live accountId a2s now rest
    match lookupA d.waitingPassengers accountId with
    | some _ =>
      let d' := { d with
        waitingPassengers := eraseA d.waitingPassengers accountId }
      let em :=
        match lookupA a2s daid with
        | some dsock =>
          if live.contains dsock && !d.disconnected then
            [Emit.toSocket dsock
              (.pingRemoved accountId now (some "user_disconnected"))]
          else []
        | none => []
      ((daid, d') :: pr.1, em ++ pr.2)
    | none => ((daid, d) :: pr.1, pr.2)

/-- The `cleanup` function run when a socket disconnects (src/server.js
lines 603-670).  Note that it deletes the session record bound to the
disconnecting socket (lines 661-666). -/
def cleanupH (live : List String) (st : ServerState) (sockId : String)
    (now : Nat) : ServerState × List Emit :=
  let accountId := lookupA st.socketToAccountId sockId
  let sessionKey := lookupA st.socketIdToSessionKey sockId
  let st1 :=
    match accountId with
    | some aid =>
      match lookupA st.drivers aid with
      | some d =>
        if d.socketId == some sockId then
          { st with
            drivers := insertA st.drivers aid
              ({ d with disconnected := true, disconnectedAt := some now,
                        socketId := none }) }
        else st
      | none => st
    | none => st
  let stEm :=
    match accountId with
    | some aid =>
      match lookupA st1.users aid with
      | some u =>
        if u.socketId == some sockId then
          let stU := { st1 with
            users := insertA st1.users aid
              ({ u with disconnected := true, disconnectedAt := some now,
                        socketId := none }) }
          let pr := pruneWaiting live aid stU.accountIdToSocketId now
            stU.drivers
          ({ stU with drivers := pr.1 }, pr.2)
        else (st1, [])
      | none => (st1, [])
    | none => (st1, [])
  let st2 := stEm.1
  let st3 :=
    match accountId with
    | some aid =>
      if lookupA st2.accountIdToSocketId aid == some sockId then
        { st2 with accountIdToSocketId := eraseA st2.accountIdToSocketId aid }
      else st2
    | none => st2
  let st4 :=
    match sessionKey with
    | some sk =>
      { st3 with
        sessionKeyToSocketId :=
          if lookupA st3.sessionKeyToSocketId sk == some sockId then
            eraseA st3.sessionKeyToSocketId sk
          else st3.sessionKeyToSocketId
        sessions := eraseA st3.sessions sk }
    | none => st3
  ({ st4 with
      socketIdToSessionKey := eraseA st4.socketIdToSessionKey sockId
      socketToAccountId := eraseA st4.socketToAccountId sockId
      rateLimitMap := eraseA st4.rateLimitMap sockId }, stEm.2)

/-- `endSession` handler (src/server.js lines 1817-1876): the only place
that fans out `driverRemoved` to the user cohort. -/
def endSessionH (st : ServerState) (conn : Conn) (now : Nat) :
    ServerState × List Emit :=
  match lookupA st.socketToAccountId conn.id with
  | none => (st, [])
  | some aid =>
    if conn.role != some Role.driver then (st, [])
    else
      match lookupA st.drivers aid with
      | none => (st, [])
      | some driver =>
        let st1 := { st with
          drivers := eraseA st.drivers aid
          socketToAccountId :=
            match driver.socketId with
            | some s => eraseA st.socketToAccountId s
            | none => st.socketToAccountId
          accountIdToSocketId := eraseA st.accountIdToSocketId aid }
        let st2 :=
          match lookupA st1.socketIdToSessionKey conn.id with
          | some sk =>
            { st1 with
              sessionKeyToSocketId :=
                if lookupA st1.sessionKeyToSocketId sk == some conn.id then
                  eraseA st1.sessionKeyToSocketId sk
                else st1.sessionKeyToSocketId
              sessions := eraseA st1.sessions sk }
          | none => st1
        let st3 := { st2 with
          socketIdToSessionKey := eraseA st2.socketIdToSessionKey conn.id
          rateLimitMap := eraseA st2.rateLimitMap conn.id
          pendingStateRestore := delSet st2.pendingStateRestore aid }
        (st3, [.toUsers (.driverRemoved aid now)])

/-- Payload of a `pingDriver` message (src/server.js line 1561). -/
structure PingPayload where
  driverAccountId : Option String
  lat : Option ℚ
  lng : Option ℚ
  passengerCount : Option ℚ
  userAccountId : Option String
deriving DecidableEq, Repr

/-- `pingDriver` handler (src/server.js lines 1549-1719). -/
def pingDriverH (live : List String) (st : ServerState) (conn : Conn)
    (p : PingPayload) (now : Nat) : ServerState × List Emit :=
  if conn.role != some Role.user then
    (st, [.toSocket conn.id (.errorMsg "Only users can ping drivers")])
  else
    let userAccountId := lookupA st.socketToAccountId conn.id
    let effectiveUserAccountId :=
      match (if truthyStr p.userAccountId then p.userAccountId else none) with
      | some u => u
      | none =>
        match (if truthyStr userAccountId then userAccountId else none) with
        | some u => u
        | none => "unknown"
    match p.driverAccountId with
    | none => (st, [.toSocket conn.id (.errorMsg "Missing driverAccountId")])
    | some d0 =>
      if jsTrimStr d0 == "" then
        (st, [.toSocket conn.id (.errorMsg "driverAccountId cannot be empty")])
      else
        match p.lat, p.lng with
        | some la, some ln =>
          if la < -90 ∨ 90 < la then
            (st, [.toSocket conn.id (.errorMsg "Invalid latitude")])
          else if ln < -180 ∨ 180 < ln then
            (st, [.toSocket conn.id (.errorMsg "Invalid longitude")])
          else
            let pcRes : Except String Nat :=
              match p.passengerCount with
              | none => .ok 1
              | some q =>
                let intCount : Int := ⌊|q|⌋
                if intCount < 1 then
                  .error "Passenger count must be at least 1"
                else if MAX_BOARDING_PASSENGERS < intCount then
                  .error "Passenger count cannot exceed 20"
                else .ok intCount.toNat
            match pcRes with
            | .error m => (st, [.toSocket conn.id (.errorMsg m)])
            | .ok requested =>
              match lookupA st.drivers d0 with
              | none => (st, [.toSocket conn.id (.errorMsg "Driver not found")])
              | some driver =>
                match lookupA st.accountIdToSocketId d0 with
                | none =>
                  (st, [.toSocket conn.id (.errorMsg "Driver socket not found")])
                | some dsock =>
                  if !live.contains dsock || driver.disconnected then
                    (st, [.toSocket conn.id (.errorMsg "Driver is offline")])
                  else
                    let st1 :=
                      match userAccountId with
                      | some uid =>
                        if uid != "" then
                          match lookupA st.users uid with
                          | some u =>
                            { st with
                              users := insertA st.users uid
                                ({ u with lat := some la, lng := some ln,
                                          lastActivity := now }) }
                          | none =>
                            { st with
                              users := insertA st.users uid
                                ({ accountId := uid, socketId := some conn.id,
                                   lat := some la, lng := some ln,
                                   lastActivity := now, connectedAt := now,
                                   disconnected := false,
                                   disconnectedAt := none })
                              socketToAccountId :=
                                insertA st.socketToAccountId conn.id uid
                              accountIdToSocketId :=
                                insertA st.accountIdToSocketId uid conn.id }
                        else st
                      | none => st
                    let driver' := { driver with
                      waitingPassengers :=
                        insertA driver.waitingPassengers effectiveUserAccountId
                          ⟨effectiveUserAccountId, la, ln, requested, now⟩ }
                    let st2 := { st1 with
                      drivers := insertA st1.drivers d0 driver' }
                    (st2, [.toSocket dsock
                      (.pingReceived effectiveUserAccountId la ln requested
                        now)])
        | _, _ =>
          (st, [.toSocket conn.id (.errorMsg "Missing user location (lat, lng)")])

/-- JavaScript `x ? now - x : 0` on a possibly-undefined timestamp (used
for `timeSinceDisconnect`; a stored `0` is falsy). -/
def jsMsSince (o : Option Nat) (now : Nat) : Nat :=
  match o with
  | some t => if t = 0 then 0 else now - t
  | none => 0

/-- The socket-liveness fix-up at the top of the `cleanupStaleDrivers`
loop body (src/server.js lines 388-407): a record holding a dead socket
is moved into the grace substate.  Returns the (possibly updated) record
and state. -/
def reapFix (live : List String) (now : Nat) (st : ServerState)
    (aid : String) (driver : DriverRec) : DriverRec × ServerState :=
  match driver.socketId with
  | some s =>
    if !live.contains s && !driver.disconnected then
      let d' := { driver with disconnected := true,
                              disconnectedAt := some now,
                              socketId := none }
      (d', { st with drivers := insertA st.drivers aid d',
                     accountIdToSocketId :=
                       eraseA st.accountIdToSocketId aid })
    else (driver, st)
  | none => (driver, st)

/-- One iteration of the `cleanupStaleDrivers` loop for account `aid`
(src/server.js lines 376-453).  The loop only logs; it never emits a
socket event, so the emit component is always empty. -/
def reapDriver (live : List String) (now : Nat) (st : ServerState)
    (aid : String) : ServerState × List Emit :=
  match lookupA st.drivers aid with
  | none => (st, [])
  | some driver =>
    let timeSinceUpdate := now - driver.lastUpdated
    let timeSinceDisconnect := jsMsSince driver.disconnectedAt now
    let isDisconnected := driver.disconnected
    let gracePeriodExpired := isDisconnected &&
      decide (DISCONNECT_GRACE_PERIOD < timeSinceDisconnect)
    let fix := reapFix live now st aid driver
    let driver1 := fix.1
    let st1 := fix.2
    if decide (STALE_DRIVER_TIMEOUT < timeSinceUpdate) then
      if !isDisconnected || gracePeriodExpired then
        ({ st1 with
            drivers := eraseA st1.drivers aid
            socketToAccountId :=
              match driver1.socketId with
              | some s => eraseA st1.socketToAccountId s
              | none => st1.socketToAccountId
            accountIdToSocketId := eraseA st1.accountIdToSocketId aid }, [])
      else (st1, [])
    else (st1, [])

/-- `cleanupStaleDrivers` (src/server.js lines 376-453): sweeps the
drivers table, folding `reapDriver` over the snapshot of its keys. -/
def cleanupStaleDrivers (live : List String) (st : ServerState) (now : Nat) :
    ServerState × List Emit :=
  (st.drivers.map Prod.fst).foldl
    (fun acc aid =>
      let r := reapDriver live now acc.1 aid
      (r.1, acc.2 ++ r.2))
    (st, [])

/-! ### Spec-side broadcast rules (for the refinement claim C1)

The following definitions follow the wording of spec.md §4.3 (Update
Filter): they are the specification's four broadcast rules, not the
code's.  Rule 2's "planar Euclidean distance exceeds `movementThreshold`"
is embedded through the squared comparison, using that for a nonnegative
threshold `t` and radicand `s`, `Real.sqrt s > t ↔ t * t < s`. -/

/-- Spec rule 2: an anchor coordinate is absent, or the planar Euclidean
distance from the anchor exceeds the movement threshold. -/
def specAnchorRule (d : DriverRec) (la ln : ℚ) : Bool :=
  match d.lastLat, d.lastLng with
  | some alat, some alng =>
    decide (LOCATION_CHANGE_THRESHOLD * LOCATION_CHANGE_THRESHOLD <
      (la - alat) * (la - alat) + (ln - alng) * (ln - alng))
  | _, _ => true

/-- Spec rule 3: the supplied `passengerCount` or `maxCapacity` differs
from the stored value. -/
def specPayloadRule (d : DriverRec) (pc mc : Option ℚ) : Bool :=
  pc != d.passengerCount || mc != d.maxCapacity

/-- Spec rule 4: at least `heartbeatInterval` has elapsed since the last
broadcast (vacuously true when the driver has never broadcast). -/
def specHeartbeatRule (d : DriverRec) (now : Nat) : Bool :=
  match d.lastBroadcastTime with
  | some t => decide (LOCATION_UPDATE_INTERVAL ≤ now - t)
  | none => true

/-- Spec-side broadcast decision: rule 1 (no prior record) or rules 2-4. -/
def specShouldBroadcast (prev : Option DriverRec) (la ln : ℚ)
    (pc mc : Option ℚ) (now : Nat) : Bool :=
  match prev with
  | none => true
  | some d =>
    specAnchorRule d la ln || specPayloadRule d pc mc ||
      specHeartbeatRule d now

/-! ### The stationary-heartbeat scenario of C1 -/

/-- The stationary payload of the C1 scenario
(`lat 14.5 = 29/2, lng 121, 3/20 passengers`). -/
def scenarioPayload : LocPayload :=
  { accountId := some "D1", organizationName := none,
    destinationName := none, destinationLat := none, destinationLng := none,
    lat := some (29 / 2), lng := some 121, passengerCount := some 3,
    maxCapacity := some 20 }

/-- The driver connection used by the scenario. -/
def scenarioConn : Conn := ⟨"S1", some Role.driver⟩

/-- Whether an emit list contains a `locationUpdate` broadcast to the user
cohort. -/
def broadcastsLocation (es : List Emit) : Bool :=
  es.any fun e =>
    match e with
    | .toUsers (.locationUpdate _ _ _ _ _) => true
    | _ => false

/-- One scenario step: run `updateLocation` at time `t` and record whether
it broadcast. -/
def scenarioStep (st : ServerState) (t : Nat) : ServerState × Bool :=
  let out := updateLocationH ["S1"] st scenarioConn scenarioPayload t
  (out.state, broadcastsLocation out.emits)

/-- The C1 scenario: the identical stationary payload at t=0, 5 s, 10 s,
16 s (offset to base time 1000000 ms so that no timestamp is falsy). -/
def heartbeatScenario : List Bool :=
  let s1 := scenarioStep ServerState.init 1000000
  let s2 := scenarioStep s1.1 1005000
  let s3 := scenarioStep s2.1 1010000
  let s4 := scenarioStep s3.1 1016000
  [s1.2, s2.2, s3.2, s4.2]

/-- A driver record whose last broadcast anchored at `(0.00005, 121)` at
time 1000000 ms, with 3/20 passengers. -/
def cxDriver : DriverRec :=
  { accountId := "D1", organizationName := none, destinationName := none,
    destinationLat := none, destinationLng := none, lat := some (1 / 20000),
    lng := some 121, geometry := none, passengerCount := some 3,
    maxCapacity := some 20, lastUpdated := 1000000, socketId := some "S1",
    disconnected := false, disconnectedAt := none, reconnectAttempts := 0,
    lastLat := some (1 / 20000), lastLng := some 121,
    lastBroadcastTime := some 1000000, waitingPassengers := [] }

theorem locationChanged_eq_specAnchorRule (d : DriverRec) (la ln : ℚ)
    (hla : la ≠ 0) (hln : ln ≠ 0) (h1 : d.lastLat ≠ some 0)
    (h2 : d.lastLng ≠ some 0) :
    locationChanged (some d) la ln = specAnchorRule d la ln := by
  cases hal : d.lastLat with
  | none => simp [locationChanged, truthyQ, specAnchorRule, hal]
  | some alat =>
    cases halg : d.lastLng with
    | none => simp [locationChanged, truthyQ, specAnchorRule, hal, halg]
    | some alng =>
      have ha : alat ≠ 0 := by rintro rfl; exact h1 hal
      have hb : alng ≠ 0 := by rintro rfl; exact h2 halg
      simp [locationChanged, truthyQ, hal, halg, ha, hb, hla, hln,
        calculateDistance, JsDist.gtQ, specAnchorRule, abs_mul_abs_self,
        bne_iff_ne]

theorem isIntervalUpdate_eq_specHeartbeatRule (d : DriverRec) (now : Nat)
    (h : d.lastBroadcastTime ≠ some 0) :
    isIntervalUpdate (some d) now = specHeartbeatRule d now := by
  cases ht : d.lastBroadcastTime with
  | none =>
    simp [isIntervalUpdate, timeSinceLastBroadcast, specHeartbeatRule, ht]
  | some t =>
    have htz : t ≠ 0 := by rintro rfl; exact h ht
    simp [isIntervalUpdate, timeSinceLastBroadcast, specHeartbeatRule, ht, htz]

/-- C1 (amended): for an update whose coordinates are nonzero, against a
record whose stored anchors and last-broadcast timestamp (when present)
are nonzero, `updateLocation` broadcasts exactly when spec rules 1-4 say
so; and the stationary driver scenario broadcasts exactly at t=0 and
t=16 s.  (When any of those values is exactly 0 the code treats it as
missing and broadcasts unconditionally; see the counterexample.) -/
theorem updateFilter_iff_specRules :
    (∀ (prev : Option DriverRec) (la ln : ℚ) (pc mc : Option ℚ) (now : Nat),
      la ≠ 0 → ln ≠ 0 →
      (∀ d, prev = some d →
        d.lastLat ≠ some 0 ∧ d.lastLng ≠ some 0 ∧
          d.lastBroadcastTime ≠ some 0) →
      shouldBroadcast prev la ln pc mc now =
        specShouldBroadcast prev la ln pc mc now) ∧
    heartbeatScenario = [true, false, false, true] := by
  constructor
  · intro prev la ln pc mc now hla hln hp
    cases prev with
    | none => rfl
    | some d =>
      obtain ⟨h1, h2, h3⟩ := hp d rfl
      simp only [shouldBroadcast, specShouldBroadcast, Option.isNone_some,
        Bool.false_or]
      rw [locationChanged_eq_specAnchorRule d la ln hla hln h1 h2,
        isIntervalUpdate_eq_specHeartbeatRule d now h3]
      rfl
  · decide

/-- C1 counterexample: an update at the exactly-zero latitude `0` (on the
equator), 0.00005° from the last-broadcast anchor, with unchanged
passenger data, 1 s after the last broadcast.  None of the four spec
rules holds, yet the code broadcasts, because `calculateDistance` treats
the `0` coordinate as missing and returns `Infinity`. -/
theorem zeroCoordinate_breaks_filter_iff :
    shouldBroadcast (some cxDriver) 0 121 (some 3) (some 20) 1001000 = true ∧
    specShouldBroadcast (some cxDriver) 0 121 (some 3) (some 20) 1001000 =
      false := by
  decide

theorem updateFilter_iff_specRules_witness :
    shouldBroadcast (some cxDriver) (29 / 2) 121 (some 3) (some 20) 1005000 =
      specShouldBroadcast (some cxDriver) (29 / 2) 121 (some 3) (some 20)
        1005000 := by
  refine updateFilter_iff_specRules.1 (some cxDriver) (29 / 2) 121 (some 3)
    (some 20) 1005000 (by decide) (by decide) ?_
  intro d hd
  have hdc : d = cxDriver := by
    injection hd with h
    exact h.symm
  subst hdc
  exact ⟨by decide, by decide, by decide⟩

/-! ### Claim C2 -/

/-- A stationary payload identical to `cxDriver`'s stored state. -/
def stillPayload : LocPayload :=
  { accountId := some "D1", organizationName := none,
    destinationName := none, destinationLat := none, destinationLng := none,
    lat := some (1 / 20000), lng := some 121, passengerCount := some 3,
    maxCapacity := some 20 }

/-- C2: an accepted `updateLocation` that does not fire the broadcast
filter leaves the last-broadcast anchors untouched while still merging
`lat`/`lng`/`lastUpdated` and all supplied payload fields; the anchors
move exactly on broadcasting updates. -/
theorem nonBroadcast_preserves_anchors :
    (∀ (d : DriverRec) (p : LocPayload) (aid : String) (la ln : ℚ)
        (now : Nat) (sid : String),
      shouldBroadcast (some d) la ln p.passengerCount p.maxCapacity now =
        false →
      (mergeDriver (some d) p aid la ln now sid false).lastLat = d.lastLat ∧
      (mergeDriver (some d) p aid la ln now sid false).lastLng = d.lastLng ∧
      (mergeDriver (some d) p aid la ln now sid false).lastBroadcastTime =
        d.lastBroadcastTime ∧
      (mergeDriver (some d) p aid la ln now sid false).lat = some la ∧
      (mergeDriver (some d) p aid la ln now sid false).lng = some ln ∧
      (mergeDriver (some d) p aid la ln now sid false).lastUpdated = now ∧
      (∀ v, p.passengerCount = some v →
        (mergeDriver (some d) p aid la ln now sid false).passengerCount =
          some v) ∧
      (∀ v, p.maxCapacity = some v →
        (mergeDriver (some d) p aid la ln now sid false).maxCapacity =
          some v) ∧
      (∀ v, p.destinationLat = some v →
        (mergeDriver (some d) p aid la ln now sid false).destinationLat =
          some v) ∧
      (∀ v, p.destinationLng = some v →
        (mergeDriver (some d) p aid la ln now sid false).destinationLng =
          some v) ∧
      (∀ s, p.organizationName = some s → s ≠ "" →
        (mergeDriver (some d) p aid la ln now sid false).organizationName =
          some s) ∧
      (∀ s, p.destinationName = some s → s ≠ "" →
        (mergeDriver (some d) p aid la ln now sid false).destinationName =
          some s)) ∧
    (∀ (prev : Option DriverRec) (p : LocPayload) (aid : String) (la ln : ℚ)
        (now : Nat) (sid : String),
      (mergeDriver prev p aid la ln now sid true).lastLat = some la ∧
      (mergeDriver prev p aid la ln now sid true).lastLng = some ln ∧
      (mergeDriver prev p aid la ln now sid true).lastBroadcastTime =
        some now) := by
  constructor
  · intro d p aid la ln now sid h
    simp only [shouldBroadcast, Bool.or_eq_false_iff] at h
    obtain ⟨⟨⟨_, hlc⟩, _⟩, _⟩ := h
    simp only [locationChanged, Bool.or_eq_false_iff, Bool.not_eq_false'] at hlc
    obtain ⟨⟨hlat, hlng⟩, _⟩ := hlc
    refine ⟨?_, ?_, rfl, rfl, rfl, rfl, ?_, ?_, ?_, ?_, ?_, ?_⟩
    · cases hv : d.lastLat with
      | none => rw [hv] at hlat; simp [truthyQ] at hlat
      | some v => simp [mergeDriver, hv]
    · cases hv : d.lastLng with
      | none => rw [hv] at hlng; simp [truthyQ] at hlng
      | some v => simp [mergeDriver, hv]
    · intro v hv; simp [mergeDriver, hv]
    · intro v hv; simp [mergeDriver, hv]
    · intro v hv; simp [mergeDriver, hv, Option.or]
    · intro v hv; simp [mergeDriver, hv, Option.or]
    · intro s hs hne; simp [mergeDriver, jsOrStr, truthyStr, hs, hne]
    · intro s hs hne; simp [mergeDriver, jsOrStr, truthyStr, hs, hne]
  · intro prev p aid la ln now sid
    exact ⟨rfl, rfl, rfl⟩

theorem nonBroadcast_preserves_anchors_witness :
    (mergeDriver (some cxDriver) stillPayload "D1" (1 / 20000) 121 1001000
        "S1" false).lastLat = cxDriver.lastLat ∧
    (mergeDriver (some cxDriver) stillPayload "D1" (1 / 20000) 121 1001000
        "S1" false).lastBroadcastTime = cxDriver.lastBroadcastTime ∧
    (mergeDriver (some cxDriver) stillPayload "D1" (1 / 20000) 121 1016000
        "S1" true).lastBroadcastTime = some 1016000 := by
  have h := nonBroadcast_preserves_anchors.1 cxDriver stillPayload "D1"
    (1 / 20000) 121 1001000 "S1" (by decide)
  exact ⟨h.1, h.2.2.1,
    (nonBroadcast_preserves_anchors.2 (some cxDriver) stillPayload "D1"
      (1 / 20000) 121 1016000 "S1").2.2⟩

/-! ### Claim C10 -/

/-- C10: a latitude or longitude of exactly 0 (or a stored anchor
coordinate of 0) makes `calculateDistance` return `Infinity`, so the
movement test passes and the update is broadcast regardless of
displacement, payload delta, or the heartbeat timer. -/
theorem zeroCoordinate_forces_broadcast :
    ∀ (d : DriverRec) (la ln : ℚ) (pc mc : Option ℚ) (now : Nat),
      (la = 0 ∨ ln = 0 ∨ d.lastLat = some 0 ∨ d.lastLng = some 0) →
      calculateDistance la ln (d.lastLat.getD 0) (d.lastLng.getD 0) =
        .inf ∧
      locationChanged (some d) la ln = true ∧
      shouldBroadcast (some d) la ln pc mc now = true := by
  intro d la ln pc mc now h
  have hdist : calculateDistance la ln (d.lastLat.getD 0)
      (d.lastLng.getD 0) = .inf := by
    rcases h with h | h | h | h
    · simp [calculateDistance, h]
    · simp [calculateDistance, h]
    · simp [calculateDistance, h]
    · simp [calculateDistance, h]
  have hloc : locationChanged (some d) la ln = true := by
    simp [locationChanged, hdist, JsDist.gtQ]
  exact ⟨hdist, hloc, by simp [shouldBroadcast, hloc]⟩

theorem zeroCoordinate_forces_broadcast_witness :
    calculateDistance 0 121 (cxDriver.lastLat.getD 0)
      (cxDriver.lastLng.getD 0) = .inf ∧
    locationChanged (some cxDriver) 0 121 = true ∧
    shouldBroadcast (some cxDriver) 0 121 (some 3) (some 20) 1001000 =
      true :=
  zeroCoordinate_forces_broadcast cxDriver 0 121 (some 3) (some 20) 1001000
    (Or.inl rfl)

/-! ### Claim C3 -/

theorem reapDriver_emits_nil (live : List String) (now : Nat)
    (st : ServerState) (aid : String) :
    (reapDriver live now st aid).2 = [] := by
  cases h : lookupA st.drivers aid with
  | none => simp [reapDriver, h]
  | some d =>
    simp only [reapDriver, h]
    split
    · split <;> rfl
    · rfl

theorem reapFold_emits (l : List String) :
    ∀ (p : ServerState × List Emit) (live : List String) (now : Nat),
      (l.foldl (fun acc aid =>
        let r := reapDriver live now acc.1 aid
        (r.1, acc.2 ++ r.2)) p).2 = p.2 := by
  induction l with
  | nil => intro p live now; rfl
  | cons a l ih =>
    intro p live now
    rw [List.foldl_cons, ih]
    simp [reapDriver_emits_nil]

theorem reapFix_keeps (live : List String) (now : Nat) (st : ServerState)
    (aid : String) (d : DriverRec) (hd : lookupA st.drivers aid = some d) :
    lookupA (reapFix live now st aid d).2.drivers aid ≠ none := by
  unfold reapFix
  split
  · split
    · simp [lookupA_insert_self]
    · simp [hd]
  · simp [hd]

theorem reapDriver_delete_iff (live : List String) (now : Nat)
    (st : ServerState) (aid : String) (d : DriverRec)
    (hd : lookupA st.drivers aid = some d) :
    lookupA (reapDriver live now st aid).1.drivers aid = none ↔
      (STALE_DRIVER_TIMEOUT < now - d.lastUpdated ∧
        (d.disconnected = false ∨
          DISCONNECT_GRACE_PERIOD < jsMsSince d.disconnectedAt now)) := by
  simp only [reapDriver, hd]
  by_cases hA : STALE_DRIVER_TIMEOUT < now - d.lastUpdated
  · by_cases hB : d.disconnected = false ∨
        DISCONNECT_GRACE_PERIOD < jsMsSince d.disconnectedAt now
    · have hB' : (!d.disconnected ||
          (d.disconnected &&
            decide (DISCONNECT_GRACE_PERIOD < jsMsSince d.disconnectedAt now)))
          = true := by
        rcases hB with h | h
        · simp [h]
        · simp [h]
      rw [if_pos (by exact decide_eq_true hA), if_pos hB']
      simp [lookupA_erase_self, hA, hB]
    · have hB' : (!d.disconnected ||
          (d.disconnected &&
            decide (DISCONNECT_GRACE_PERIOD < jsMsSince d.disconnectedAt now)))
          = false := by
        push_neg at hB
        obtain ⟨h1, h2⟩ := hB
        have hdt : d.disconnected = true := by
          cases hdc : d.disconnected with
          | false => exact absurd hdc h1
          | true => rfl
        simp [hdt, h2]
      rw [if_pos (by exact decide_eq_true hA), if_neg (by simp [hB'])]
      constructor
      · intro h
        exact absurd h (reapFix_keeps live now st aid d hd)
      · intro h
        exact absurd h.2 hB
  · rw [if_neg (by simp [hA])]
    constructor
    · intro h
      exact absurd h (reapFix_keeps live now st aid d hd)
    · intro h
      exact absurd h.1 hA

/-- A stale driver used in the reaper claims: last update at
t=1000000 ms, connected, no socket. -/
def c3Driver : DriverRec :=
  { accountId := "D1", organizationName := none, destinationName := none,
    destinationLat := none, destinationLng := none, lat := some 1,
    lng := some 1, geometry := none, passengerCount := some 0,
    maxCapacity := some 0, lastUpdated := 1000000, socketId := none,
    disconnected := false, disconnectedAt := none, reconnectAttempts := 0,
    lastLat := some 1, lastLng := some 1, lastBroadcastTime := some 1000000,
    waitingPassengers := [] }

/-- A state holding only the stale driver `c3Driver`. -/
def c3State : ServerState :=
  { ServerState.init with drivers := [("D1", c3Driver)] }

/-- A state where driver `D1` is live and bound to socket `S3`. -/
def c3EndState : ServerState :=
  { ServerState.init with
    drivers := [("D1", c3Driver)]
    socketToAccountId := [("S3", "D1")] }

/-- C3 counterexample: the reaper deletes the stale driver `D1`
(5 min + 1 s past its last update, not in grace) but emits nothing — in
particular no `driverRemoved` reaches the user cohort. -/
theorem reaper_fansOut_nothing_cx :
    lookupA c3State.drivers "D1" = some c3Driver ∧
    lookupA (cleanupStaleDrivers [] c3State 1301001).1.drivers "D1" = none ∧
    (cleanupStaleDrivers [] c3State 1301001).2 = [] := by
  refine ⟨rfl, by decide, ?_⟩
  exact reapFold_emits _ _ _ _

/-- C3 (amended): when the periodic reaper deletes a driver record
(because `now - lastUpdatedAt > staleTimeout` and the record is either not
in grace or past its grace window) it does so silently — the sweep emits
no events at all; `driverRemoved { accountId, timestamp }` is fanned out
to the user cohort only by the `endSession` handler. -/
theorem reaper_deletes_silently :
    (∀ (live : List String) (st : ServerState) (now : Nat),
      (cleanupStaleDrivers live st now).2 = []) ∧
    (∀ (live : List String) (now : Nat) (st : ServerState) (aid : String)
        (d : DriverRec), lookupA st.drivers aid = some d →
      (lookupA (reapDriver live now st aid).1.drivers aid = none ↔
        (STALE_DRIVER_TIMEOUT < now - d.lastUpdated ∧
          (d.disconnected = false ∨
            DISCONNECT_GRACE_PERIOD < jsMsSince d.disconnectedAt now)))) ∧
    (∀ (st : ServerState) (conn : Conn) (now : Nat) (aid : String)
        (driver : DriverRec),
      lookupA st.socketToAccountId conn.id = some aid →
      conn.role = some Role.driver →
      lookupA st.drivers aid = some driver →
      (endSessionH st conn now).2 = [.toUsers (.driverRemoved aid now)]) := by
  refine ⟨fun live st now => reapFold_emits _ _ _ _,
    fun live now st aid d hd => reapDriver_delete_iff live now st aid d hd,
    fun st conn now aid driver h1 h2 h3 => ?_⟩
  simp only [endSessionH, h1, h2, h3]
  rfl

theorem reaper_deletes_silently_witness :
    (lookupA (reapDriver [] 1301001 c3State "D1").1.drivers "D1" = none ↔
      (STALE_DRIVER_TIMEOUT < 1301001 - c3Driver.lastUpdated ∧
        (c3Driver.disconnected = false ∨
          DISCONNECT_GRACE_PERIOD <
            jsMsSince c3Driver.disconnectedAt 1301001))) ∧
    (endSessionH c3EndState ⟨"S3", some Role.driver⟩ 77).2 =
      [.toUsers (.driverRemoved "D1" 77)] :=
  ⟨reaper_deletes_silently.2.1 [] 1301001 c3State "D1" c3Driver (by decide),
   reaper_deletes_silently.2.2 c3EndState ⟨"S3", some Role.driver⟩ 77 "D1"
     c3Driver (by decide) rfl (by decide)⟩

/-! ### Claim C4 -/

/-- A live driver `D1` on socket `s1` with session key `k1`, as after a
normal driver registration. -/
def c4State : ServerState :=
  { ServerState.init with
    drivers := [("D1", { c3Driver with socketId := some "s1" })]
    socketToAccountId := [("s1", "D1")]
    accountIdToSocketId := [("D1", "s1")]
    sessionKeyToSocketId := [("k1", "s1")]
    socketIdToSessionKey := [("s1", "k1")]
    sessions := [("k1", ⟨some "D1", Role.driver, 1000000, 1000000⟩)] }

/-- C4 counterexample: a mere transport disconnect of socket `s1` (the
`cleanup` run) destroys the session record `k1`, so a `resumeSession`
during the grace window fails with the session-not-found error instead of
succeeding. -/
theorem graceResume_fails_after_disconnect :
    lookupA c4State.sessions "k1" =
      some ⟨some "D1", Role.driver, 1000000, 1000000⟩ ∧
    lookupA (cleanupH [] c4State "s1" 1005000).1.sessions "k1" = none ∧
    (resumeSessionH [] (cleanupH [] c4State "s1" 1005000).1 ⟨"s2", none⟩
        "k1" 1010000).emits =
      [.toSocket "s2"
        (.errorMsg "Session not found. Please register again.")] ∧
    (resumeSessionH [] (cleanupH [] c4State "s1" 1005000).1 ⟨"s2", none⟩
        "k1" 1010000).state =
      (cleanupH [] c4State "s1" 1005000).1 := by
  refine ⟨rfl, by decide, by decide, by decide⟩

/-- C4 (amended): the session record bound to a connection is destroyed as
soon as that connection's transport disconnects (the `cleanup` run deletes
`sessions[sessionKey]`), in addition to being destroyed on preemption and
on `endSession`; consequently a `resumeSession` with that key after a
transport disconnect fails with "Session not found. Please register
again." and leaves the state unchanged. -/
theorem session_destroyed_on_disconnect :
    (∀ (live : List String) (st : ServerState) (s k : String) (now : Nat),
      lookupA st.socketIdToSessionKey s = some k →
      lookupA (cleanupH live st s now).1.sessions k = none) ∧
    (∀ (live : List String) (st : ServerState) (conn : Conn) (k : String)
        (now : Nat),
      lookupA st.sessions k = none → (k == "") = false →
      resumeSessionH live st conn k now =
        ⟨st, [.toSocket conn.id
          (.errorMsg "Session not found. Please register again.")], [],
          conn⟩) := by
  constructor
  · intro live st s k now h
    simp only [cleanupH, h]
    exact lookupA_erase_self _ _
  · intro live st conn k now hk hne
    simp only [resumeSessionH, hne, hk]
    rfl

theorem session_destroyed_on_disconnect_witness :
    lookupA (cleanupH [] c4State "s1" 1005000).1.sessions "k1" = none ∧
    resumeSessionH [] ServerState.init ⟨"s2", none⟩ "k9" 7 =
      ⟨ServerState.init, [.toSocket "s2"
        (.errorMsg "Session not found. Please register again.")], [],
        ⟨"s2", none⟩⟩ :=
  ⟨session_destroyed_on_disconnect.1 [] c4State "s1" "k1" 1005000 (by decide),
   session_destroyed_on_disconnect.2 [] ServerState.init ⟨"s2", none⟩ "k9" 7
     rfl (by decide)⟩

/-! ### Claim C5 -/

theorem lookupA_erase_of_none {α : Type} (l : List (String × α))
    (k k' : String) (h : lookupA l k' = none) :
    lookupA (eraseA l k) k' = none := by
  by_cases he : k' = k
  · subst he; exact lookupA_erase_self _ _
  · rw [lookupA_erase_ne _ _ _ he]; exact h

/-- The wire string of a role. -/
def roleName : Role → String
  | .user => "user"
  | .driver => "driver"

theorem connReplaced_ne_snapshotEv (ds : List (String × DriverRec)) :
    SEvent.connectionReplaced ≠ driversSnapshotEvent ds := by
  unfold driversSnapshotEvent
  simp only []
  split <;> simp

/-- C5: a `registerRole` for an account bound to a different live
connection emits `connectionReplaced` on the incumbent (as the very first
emit, before `sessionAssigned`), closes exactly that incumbent, and the
account ends bound to the new connection; preempting with no live
incumbent is a no-op, and a registration with no incumbent closes nothing
and emits no `connectionReplaced`. -/
theorem preemption_on_registerRole :
    (∀ (live : List String) (st : ServerState) (conn : Conn) (r : Role)
        (aid old freshKey : String) (now : Nat),
      aid ≠ "" →
      lookupA st.accountIdToSocketId aid = some old →
      old ≠ conn.id →
      live.contains old = true →
      lookupA st.sessionKeyToSocketId freshKey = none →
      (registerRoleH live st conn (.obj (some (roleName r)) (some aid))
          freshKey now).emits.head? =
        some (.toSocket old .connectionReplaced) ∧
      (registerRoleH live st conn (.obj (some (roleName r)) (some aid))
          freshKey now).closed = [old] ∧
      lookupA (registerRoleH live st conn
          (.obj (some (roleName r)) (some aid)) freshKey
          now).state.accountIdToSocketId aid = some conn.id) ∧
    (∀ (live : List String) (st : ServerState) (old : String),
      live.contains old = false →
      disconnectOldSocket live st old = (st, [], [])) ∧
    (∀ (live : List String) (st : ServerState) (conn : Conn) (r : Role)
        (aid freshKey : String) (now : Nat),
      aid ≠ "" →
      lookupA st.accountIdToSocketId aid = none →
      lookupA st.sessionKeyToSocketId freshKey = none →
      (registerRoleH live st conn (.obj (some (roleName r)) (some aid))
          freshKey now).closed = [] ∧
      ∀ s, Emit.toSocket s .connectionReplaced ∉
        (registerRoleH live st conn (.obj (some (roleName r)) (some aid))
          freshKey now).emits) := by
  refine ⟨?_, ?_, ?_⟩
  · intro live st conn r aid old freshKey now haid hold hne hlive hfresh
    have haid' : (aid != "") = true := bne_iff_ne.mpr haid
    have hne' : (old != conn.id) = true := bne_iff_ne.mpr hne
    have hmem : old ∈ live := by simpa using hlive
    cases r with
    | user =>
      cases hsk : lookupA st.socketIdToSessionKey old with
      | none =>
        simp [registerRoleH, parseRole, disconnectOldSocket, roleName,
          show jsTrimStr "user" = "user" from by decide, truthyStr, haid',
          hne', hne, hmem, hold, hlive, hsk, hfresh, lookupA_insert_self]
      | some sk =>
        have hf2 := lookupA_erase_of_none st.sessionKeyToSocketId sk
          freshKey hfresh
        simp [registerRoleH, parseRole, disconnectOldSocket, roleName,
          show jsTrimStr "user" = "user" from by decide, truthyStr, haid',
          hne', hne, hmem, hold, hlive, hsk, hf2, lookupA_insert_self]
    | driver =>
      cases hsk : lookupA st.socketIdToSessionKey old with
      | none =>
        cases hdr : lookupA st.drivers aid with
        | none =>
          simp [registerRoleH, parseRole, disconnectOldSocket, roleName,
            show jsTrimStr "driver" = "driver" from by decide, truthyStr,
            haid', hne', hne, hmem, hold, hlive, hsk, hdr, hfresh,
            lookupA_insert_self]
        | some d =>
          simp [registerRoleH, parseRole, disconnectOldSocket, roleName,
            show jsTrimStr "driver" = "driver" from by decide, truthyStr,
            haid', hne', hne, hmem, hold, hlive, hsk, hdr, hfresh,
            lookupA_insert_self]
      | some sk =>
        have hf2 := lookupA_erase_of_none st.sessionKeyToSocketId sk
          freshKey hfresh
        cases hdr : lookupA st.drivers aid with
        | none =>
          simp [registerRoleH, parseRole, disconnectOldSocket, roleName,
            show jsTrimStr "driver" = "driver" from by decide, truthyStr,
            haid', hne', hne, hmem, hold, hlive, hsk, hdr, hf2,
            lookupA_insert_self]
        | some d =>
          simp [registerRoleH, parseRole, disconnectOldSocket, roleName,
            show jsTrimStr "driver" = "driver" from by decide, truthyStr,
            haid', hne', hne, hmem, hold, hlive, hsk, hdr, hf2,
            lookupA_insert_self]
  · intro live st old h
    have hnm : old ∉ live := by simpa using h
    simp [disconnectOldSocket, hnm]
  · intro live st conn r aid freshKey now haid hold hfresh
    have haid' : (aid != "") = true := bne_iff_ne.mpr haid
    cases r with
    | user =>
      simp [registerRoleH, parseRole, roleName,
        show jsTrimStr "user" = "user" from by decide, truthyStr, haid',
        hold, hfresh, currentDataEvent, connReplaced_ne_snapshotEv]
    | driver =>
      cases hdr : lookupA st.drivers aid with
      | none =>
        simp [registerRoleH, parseRole, roleName,
          show jsTrimStr "driver" = "driver" from by decide, truthyStr,
          haid', hold, hdr, hfresh]
      | some d =>
        simp [registerRoleH, parseRole, roleName,
          show jsTrimStr "driver" = "driver" from by decide, truthyStr,
          haid', hold, hdr, hfresh]

/-- A state with driver `D1` live on socket `sOld`, used to witness the
preemption claim. -/
def c5State : ServerState :=
  { ServerState.init with
    drivers := [("D1", { c3Driver with socketId := some "sOld" })]
    socketToAccountId := [("sOld", "D1")]
    accountIdToSocketId := [("D1", "sOld")] }

theorem preemption_on_registerRole_witness :
    ((registerRoleH ["sOld", "sNew"] c5State ⟨"sNew", none⟩
        (.obj (some "driver") (some "D1")) "K1" 2000000).emits.head? =
      some (.toSocket "sOld" .connectionReplaced) ∧
    (registerRoleH ["sOld", "sNew"] c5State ⟨"sNew", none⟩
        (.obj (some "driver") (some "D1")) "K1" 2000000).closed = ["sOld"] ∧
    lookupA (registerRoleH ["sOld", "sNew"] c5State ⟨"sNew", none⟩
        (.obj (some "driver") (some "D1")) "K1"
        2000000).state.accountIdToSocketId "D1" = some "sNew") ∧
    disconnectOldSocket ["sNew"] c5State "sGone" = (c5State, [], []) :=
  ⟨preemption_on_registerRole.1 ["sOld", "sNew"] c5State ⟨"sNew", none⟩
      Role.driver "D1" "sOld" "K1" 2000000 (by decide) (by decide)
      (by decide) (by decide) (by decide),
   preemption_on_registerRole.2.1 ["sNew"] c5State "sGone" (by decide)⟩

/-! ### Claim C6 -/

/-- Number of `driverStateRestored` deliveries in an emit list. -/
def countRestored (es : List Emit) : Nat :=
  es.countP fun e =>
    match e with
    | .toSocket _ (.driverStateRestored _ _ _ _ _) => true
    | _ => false

theorem countRestored_append (l1 l2 : List Emit) :
    countRestored (l1 ++ l2) = countRestored l1 + countRestored l2 :=
  List.countP_append _ _ _

theorem countRestored_usersIf (b : Bool) (ev : SEvent) :
    countRestored (if b then [Emit.toUsers ev] else []) = 0 := by
  cases b <;> rfl

theorem countRestored_nil : countRestored [] = 0 := rfl

theorem countRestored_usersIte (c : Prop) [Decidable c] (ev : SEvent) :
    countRestored (if c then [Emit.toUsers ev] else []) = 0 := by
  split <;> rfl

theorem countRestored_restored_one (sid aid : String) (pc mc : ℚ)
    (la ln : Option ℚ) :
    countRestored [Emit.toSocket sid
      (.driverStateRestored aid pc mc la ln)] = 1 := rfl

theorem countRestored_cons_restored (sid aid : String) (pc mc : ℚ)
    (la ln : Option ℚ) (rest : List Emit) :
    countRestored (Emit.toSocket sid
        (.driverStateRestored aid pc mc la ln) :: rest) =
      countRestored rest + 1 := by
  simp [countRestored, List.countP_cons]

theorem dos_drivers (live : List String) (st : ServerState) (old : String) :
    (disconnectOldSocket live st old).1.drivers = st.drivers := by
  unfold disconnectOldSocket
  split
  · dsimp only
    split <;> rfl
  · rfl

theorem dos_pending (live : List String) (st : ServerState) (old : String) :
    (disconnectOldSocket live st old).1.pendingStateRestore =
      st.pendingStateRestore := by
  unfold disconnectOldSocket
  split
  · dsimp only
    split <;> rfl
  · rfl

theorem dos_countRestored (live : List String) (st : ServerState)
    (old : String) :
    countRestored (disconnectOldSocket live st old).2.1 = 0 := by
  unfold disconnectOldSocket
  repeat' split <;> rfl

theorem rse_drivers (live : List String) (st : ServerState) (cid : String)
    (prev : Option DriverRec) :
    (reconnectSideEffects live st cid prev).1.drivers = st.drivers := by
  cases prev with
  | none => rfl
  | some d =>
    cases hs : d.socketId with
    | none =>
      cases hdis : d.disconnected <;> simp [reconnectSideEffects, hdis, hs]
    | some s =>
      cases hdis : d.disconnected <;> by_cases hne : s = cid <;>
        simp [reconnectSideEffects, hdis, hs, hne, dos_drivers]

theorem rse_pending (live : List String) (st : ServerState) (cid : String)
    (prev : Option DriverRec) :
    (reconnectSideEffects live st cid prev).1.pendingStateRestore =
      st.pendingStateRestore := by
  cases prev with
  | none => rfl
  | some d =>
    cases hs : d.socketId with
    | none =>
      cases hdis : d.disconnected <;> simp [reconnectSideEffects, hdis, hs]
    | some s =>
      cases hdis : d.disconnected <;> by_cases hne : s = cid <;>
        simp [reconnectSideEffects, hdis, hs, hne, dos_pending]

theorem dos_emits_connRep (live : List String) (st : ServerState)
    (old : String) : ∀ e ∈ (disconnectOldSocket live st old).2.1,
      e = Emit.toSocket old .connectionReplaced := by
  unfold disconnectOldSocket
  split
  · intro e he
    simpa using he
  · intro e he
    simp at he

theorem rse_countRestored (live : List String) (st : ServerState)
    (cid : String) (prev : Option DriverRec) :
    countRestored (reconnectSideEffects live st cid prev).2.1 = 0 := by
  cases prev with
  | none => rfl
  | some d =>
    cases hs : d.socketId with
    | none =>
      cases hdis : d.disconnected <;>
        simp [reconnectSideEffects, hdis, hs, countRestored]
    | some s =>
      cases hdis : d.disconnected <;> by_cases hne : s = cid <;>
        simp [reconnectSideEffects, hdis, hs, hne, countRestored] <;>
        (intro a ha
         rw [dos_emits_connRep live st s a ha])

theorem mem_addSet_self (l : List String) (a : String) : a ∈ addSet l a := by
  unfold addSet
  split
  · next h => simpa using h
  · exact List.mem_cons_self a l

theorem not_mem_delSet_self (l : List String) (a : String) :
    a ∉ delSet l a := by
  unfold delSet
  intro h
  have := List.of_mem_filter h
  simp at this

/-- C6: after a driver resumes (or re-registers) with an existing record,
no `driverStateRestored` is emitted immediately and the account is marked
pending; the first subsequent `updateLocation` or `passengerUpdate`
unicasts exactly one `driverStateRestored` to that driver's connection
carrying the record as merged by that update and clears the pending flag;
an update with the flag clear emits none. -/
theorem restore_gate_on_first_update :
    (∀ (live : List String) (st : ServerState) (conn : Conn) (k : String)
        (now : Nat) (ses : SessionRec) (aid : String) (d : DriverRec),
      (k == "") = false →
      lookupA st.sessions k = some ses →
      ses.role = Role.driver → ses.accountId = some aid → aid ≠ "" →
      lookupA st.sessionKeyToSocketId k = none →
      lookupA st.accountIdToSocketId aid = none →
      lookupA st.drivers aid = some d →
      countRestored (resumeSessionH live st conn k now).emits = 0 ∧
      aid ∈ (resumeSessionH live st conn k now).state.pendingStateRestore ∧
      lookupA (resumeSessionH live st conn k now).state.drivers aid =
        some { d with socketId := some conn.id, disconnected := false,
                      disconnectedAt := none }) ∧
    (∀ (live : List String) (st : ServerState) (conn : Conn) (r : Role)
        (aid freshKey : String) (now : Nat) (d : DriverRec),
      aid ≠ "" →
      lookupA st.accountIdToSocketId aid = none →
      lookupA st.sessionKeyToSocketId freshKey = none →
      lookupA st.drivers aid = some d →
      countRestored (registerRoleH live st conn
        (.obj (some (roleName Role.driver)) (some aid)) freshKey
        now).emits = 0 ∧
      aid ∈ (registerRoleH live st conn
        (.obj (some (roleName Role.driver)) (some aid)) freshKey
        now).state.pendingStateRestore) ∧
    (∀ (live : List String) (st : ServerState) (conn : Conn)
        (p : LocPayload) (now : Nat) (aid : String) (la ln : ℚ),
      validateLocationData p = true →
      p.accountId = some aid → p.lat = some la → p.lng = some ln →
      (checkRateLimit st.rateLimitMap conn.id now
        MAX_LOCATION_UPDATES_PER_MINUTE).1 = true →
      st.pendingStateRestore.contains aid = true →
      ∃ m, lookupA (updateLocationH live st conn p now).state.drivers aid =
          some m ∧
        Emit.toSocket conn.id (.driverStateRestored aid
            (m.passengerCount.getD 0) (m.maxCapacity.getD 0) m.lat m.lng) ∈
          (updateLocationH live st conn p now).emits ∧
        countRestored (updateLocationH live st conn p now).emits = 1 ∧
        aid ∉ (updateLocationH live st conn p now).state.pendingStateRestore) ∧
    (∀ (live : List String) (st : ServerState) (conn : Conn)
        (p : LocPayload) (now : Nat) (aid : String) (la ln : ℚ),
      validateLocationData p = true →
      p.accountId = some aid → p.lat = some la → p.lng = some ln →
      (checkRateLimit st.rateLimitMap conn.id now
        MAX_LOCATION_UPDATES_PER_MINUTE).1 = true →
      st.pendingStateRestore.contains aid = false →
      countRestored (updateLocationH live st conn p now).emits = 0) ∧
    (∀ (live : List String) (st : ServerState) (conn : Conn)
        (aid : String) (pc mc : Option ℚ) (now : Nat),
      aid ≠ "" →
      st.pendingStateRestore.contains aid = true →
      ∃ m, lookupA (passengerUpdateH live st conn (some aid) pc mc
            now).state.drivers aid = some m ∧
        Emit.toSocket conn.id (.driverStateRestored aid
            (m.passengerCount.getD 0) (m.maxCapacity.getD 0) m.lat m.lng) ∈
          (passengerUpdateH live st conn (some aid) pc mc now).emits ∧
        countRestored (passengerUpdateH live st conn (some aid) pc mc
          now).emits = 1 ∧
        aid ∉ (passengerUpdateH live st conn (some aid) pc mc
          now).state.pendingStateRestore) := by
  refine ⟨?_, ?_, ?_, ?_, ?_⟩
  · intro live st conn k now ses aid d hk hs hrole hacc haid hsk ha2s hd
    have haid' : (aid != "") = true := bne_iff_ne.mpr haid
    simp [resumeSessionH, hk, hs, hrole, hacc, haid', hsk, ha2s, hd,
      countRestored, lookupA_insert_self, mem_addSet_self]
  · intro live st conn r aid freshKey now d haid ha2s hfresh hd
    have haid' : (aid != "") = true := bne_iff_ne.mpr haid
    simp [registerRoleH, parseRole, roleName,
      show jsTrimStr "driver" = "driver" from by decide, truthyStr, haid',
      ha2s, hfresh, hd, countRestored, mem_addSet_self]
  · intro live st conn p now aid la ln hval hacc hla hln hrate hpend
    simp only [updateLocationH, hval, Bool.not_true, Bool.false_eq_true,
      if_false, hrate, hacc, hla, hln]
    simp only [emitRestoreIfPending, rse_pending, rse_drivers,
      lookupA_insert_self, hpend, if_true]
    refine ⟨_, by first | rfl | exact lookupA_insert_self _ _ _, ?_, ?_, ?_⟩
    · simp
    · simp [countRestored_append, rse_countRestored, countRestored_usersIf,
        countRestored_usersIte, countRestored_restored_one,
        countRestored_cons_restored]
    · exact not_mem_delSet_self _ _
  · intro live st conn p now aid la ln hval hacc hla hln hrate hpend
    simp only [updateLocationH, hval, Bool.not_true, Bool.false_eq_true,
      if_false, hrate, hacc, hla, hln]
    simp only [emitRestoreIfPending, rse_pending, rse_drivers, hpend,
      Bool.false_eq_true, if_false]
    simp [countRestored_append, rse_countRestored, countRestored_usersIf,
      countRestored_usersIte, countRestored_nil]
  · intro live st conn aid pc mc now haid hpend
    have haid' : truthyStr (some aid) = true := by
      simp [truthyStr, bne_iff_ne, haid]
    simp only [passengerUpdateH, haid', Bool.not_true, Bool.false_eq_true,
      if_false]
    simp only [emitRestoreIfPending, rse_pending, rse_drivers,
      lookupA_insert_self, hpend, if_true]
    refine ⟨_, by first | rfl | exact lookupA_insert_self _ _ _, ?_, ?_, ?_⟩
    · simp
    · simp [countRestored_append, rse_countRestored, countRestored_usersIf,
        countRestored_usersIte, countRestored_restored_one,
        countRestored_cons_restored]
    · exact not_mem_delSet_self _ _

/-- A state with an existing driver record for `D1`, a pending restore
flag for `D1`, and a driver session `k1` with no bound socket. -/
def c6State : ServerState :=
  { ServerState.init with
    drivers := [("D1", c3Driver)]
    pendingStateRestore := ["D1"]
    sessions := [("k1", ⟨some "D1", Role.driver, 5, 5⟩)] }

theorem restore_gate_on_first_update_witness :
    (countRestored (resumeSessionH [] c6State ⟨"s9", none⟩ "k1"
        2000000).emits = 0 ∧
      "D1" ∈ (resumeSessionH [] c6State ⟨"s9", none⟩ "k1"
        2000000).state.pendingStateRestore ∧
      lookupA (resumeSessionH [] c6State ⟨"s9", none⟩ "k1"
          2000000).state.drivers "D1" =
        some { c3Driver with socketId := some "s9", disconnected := false,
                             disconnectedAt := none }) ∧
    (∃ m, lookupA (updateLocationH ["s9"] c6State ⟨"s9", some Role.driver⟩
          scenarioPayload 2000000).state.drivers "D1" = some m ∧
      Emit.toSocket "s9" (.driverStateRestored "D1"
          (m.passengerCount.getD 0) (m.maxCapacity.getD 0) m.lat m.lng) ∈
        (updateLocationH ["s9"] c6State ⟨"s9", some Role.driver⟩
          scenarioPayload 2000000).emits ∧
      countRestored (updateLocationH ["s9"] c6State ⟨"s9", some Role.driver⟩
        scenarioPayload 2000000).emits = 1 ∧
      "D1" ∉ (updateLocationH ["s9"] c6State ⟨"s9", some Role.driver⟩
        scenarioPayload 2000000).state.pendingStateRestore) :=
  ⟨restore_gate_on_first_update.1 [] c6State ⟨"s9", none⟩ "k1" 2000000
      ⟨some "D1", Role.driver, 5, 5⟩ "D1" c3Driver (by decide) (by decide)
      rfl rfl (by decide) rfl rfl (by decide),
   restore_gate_on_first_update.2.2.1 ["s9"] c6State ⟨"s9", some Role.driver⟩
      scenarioPayload 2000000 "D1" (29 / 2) 121 (by decide) rfl rfl rfl
      (by decide) (by decide)⟩

/-! ### Claim C7 -/

/-- A run of `checkRateLimit` over a list of event timestamps for one
socket, collecting each accept/reject decision and threading the
`rateLimitMap`. -/
def rateTrace (sockId : String) : List Nat → List (String × Bucket) →
    List Bool × List (String × Bucket)
  | [], m => ([], m)
  | t :: ts, m =>
    let r := checkRateLimit m sockId t MAX_LOCATION_UPDATES_PER_MINUTE
    let rest := rateTrace sockId ts r.2
    (r.1 :: rest.1, rest.2)

theorem rateTrace_window_aux (sockId : String) (ts : List Nat) :
    ∀ (m : List (String × Bucket)) (c r : Nat),
      lookupA m sockId = some ⟨c, r⟩ →
      c ≤ MAX_LOCATION_UPDATES_PER_MINUTE →
      (∀ t ∈ ts, t ≤ r) →
      (rateTrace sockId ts m).1 =
        (List.range ts.length).map
          (fun i => decide (c + i < MAX_LOCATION_UPDATES_PER_MINUTE)) ∧
      lookupA (rateTrace sockId ts m).2 sockId =
        some ⟨min (c + ts.length) MAX_LOCATION_UPDATES_PER_MINUTE, r⟩ := by
  induction ts with
  | nil =>
    intro m c r hm hc hts
    refine ⟨rfl, ?_⟩
    simp only [List.length_nil, Nat.add_zero]
    have hmin : min c MAX_LOCATION_UPDATES_PER_MINUTE = c := by
      simp only [MAX_LOCATION_UPDATES_PER_MINUTE] at hc ⊢
      omega
    rw [hmin]
    exact hm
  | cons t ts ih =>
    intro m c r hm hc hts
    have ht : t ≤ r := hts t (List.mem_cons_self _ _)
    have hts' : ∀ t' ∈ ts, t' ≤ r :=
      fun t' h => hts t' (List.mem_cons.mpr (Or.inr h))
    have hnr : ¬ r < t := by omega
    simp only [rateTrace]
    by_cases hfull : MAX_LOCATION_UPDATES_PER_MINUTE ≤ c
    · have hck : checkRateLimit m sockId t MAX_LOCATION_UPDATES_PER_MINUTE =
          (false, m) := by
        simp only [checkRateLimit, hm]
        rw [if_neg hnr, if_pos hfull]
      rw [hck]
      obtain ⟨h1, h2⟩ := ih m c r hm hc hts'
      constructor
      · rw [h1]
        simp only [List.length_cons]
        rw [List.range_succ_eq_map, List.map_cons, List.map_map]
        refine congrArg₂ List.cons ?_ (List.map_congr_left ?_)
        · simp only [MAX_LOCATION_UPDATES_PER_MINUTE] at hfull ⊢
          simp
          omega
        · intro i hi
          simp only [Function.comp]
          rw [decide_eq_decide]
          simp only [MAX_LOCATION_UPDATES_PER_MINUTE] at hfull ⊢
          omega
      · rw [h2]
        simp only [List.length_cons]
        have hmm : min (c + ts.length) MAX_LOCATION_UPDATES_PER_MINUTE =
            min (c + (ts.length + 1)) MAX_LOCATION_UPDATES_PER_MINUTE := by
          simp only [MAX_LOCATION_UPDATES_PER_MINUTE] at hfull ⊢
          omega
        rw [← hmm]
    · have hck : checkRateLimit m sockId t MAX_LOCATION_UPDATES_PER_MINUTE =
          (true, insertA m sockId ⟨c + 1, r⟩) := by
        simp only [checkRateLimit, hm]
        rw [if_neg hnr, if_neg hfull]
      rw [hck]
      obtain ⟨h1, h2⟩ := ih (insertA m sockId ⟨c + 1, r⟩) (c + 1) r
        (lookupA_insert_self _ _ _)
        (by simp only [MAX_LOCATION_UPDATES_PER_MINUTE] at hfull ⊢; omega)
        hts'
      constructor
      · rw [h1]
        simp only [List.length_cons]
        rw [List.range_succ_eq_map, List.map_cons, List.map_map]
        refine congrArg₂ List.cons ?_ (List.map_congr_left ?_)
        · simp only [MAX_LOCATION_UPDATES_PER_MINUTE] at hfull ⊢
          simp
          omega
        · intro i hi
          simp only [Function.comp]
          rw [decide_eq_decide]
          simp only [MAX_LOCATION_UPDATES_PER_MINUTE] at hfull ⊢
          omega
      · rw [h2]
        simp only [List.length_cons]
        have hmm : min (c + 1 + ts.length) MAX_LOCATION_UPDATES_PER_MINUTE =
            min (c + (ts.length + 1)) MAX_LOCATION_UPDATES_PER_MINUTE := by
          omega
        rw [hmm]

/-- C7: starting from an empty bucket, the first `maxUpdatesPerMinute`
(10) `updateLocation` events within one 60 s window are accepted and the
later ones rejected; a rejected event leaves the driver table, the
`rateLimitMap`, and the bucket untouched (only a rate-limit error is
emitted); and the bucket's reset moment is exactly `60000` ms after the
event that opened it — an event past that moment gets a fresh bucket. -/
theorem rateLimit_window :
    (∀ (sockId : String) (t0 : Nat) (ts : List Nat)
        (m : List (String × Bucket)),
      lookupA m sockId = none →
      (∀ t ∈ ts, t ≤ t0 + 60000) →
      (rateTrace sockId (t0 :: ts) m).1 =
        (List.range (ts.length + 1)).map
          (fun i => decide (i < MAX_LOCATION_UPDATES_PER_MINUTE)) ∧
      lookupA (rateTrace sockId (t0 :: ts) m).2 sockId =
        some ⟨min (ts.length + 1) MAX_LOCATION_UPDATES_PER_MINUTE,
          t0 + 60000⟩) ∧
    (∀ (m : List (String × Bucket)) (sockId : String) (now : Nat),
      (checkRateLimit m sockId now MAX_LOCATION_UPDATES_PER_MINUTE).1 =
        false →
      (checkRateLimit m sockId now MAX_LOCATION_UPDATES_PER_MINUTE).2 =
        m) ∧
    (∀ (live : List String) (st : ServerState) (conn : Conn)
        (p : LocPayload) (now : Nat),
      validateLocationData p = true →
      (checkRateLimit st.rateLimitMap conn.id now
        MAX_LOCATION_UPDATES_PER_MINUTE).1 = false →
      (updateLocationH live st conn p now).state.drivers = st.drivers ∧
      (updateLocationH live st conn p now).state.rateLimitMap =
        st.rateLimitMap ∧
      (updateLocationH live st conn p now).emits =
        [.toSocket conn.id (.errorMsg
          "Rate limit exceeded. Please slow down location updates.")]) ∧
    (∀ (m : List (String × Bucket)) (sockId : String) (c r now : Nat),
      lookupA m sockId = some ⟨c, r⟩ → r < now →
      checkRateLimit m sockId now MAX_LOCATION_UPDATES_PER_MINUTE =
        (true, insertA m sockId ⟨1, now + 60000⟩)) := by
  have part2 : ∀ (m : List (String × Bucket)) (sockId : String) (now : Nat),
      (checkRateLimit m sockId now MAX_LOCATION_UPDATES_PER_MINUTE).1 =
        false →
      (checkRateLimit m sockId now MAX_LOCATION_UPDATES_PER_MINUTE).2 =
        m := by
    intro m sockId now h
    unfold checkRateLimit at h ⊢
    cases hl : lookupA m sockId with
    | none =>
      rw [hl] at h
      simp at h
    | some l =>
      rw [hl] at h
      dsimp only at h ⊢
      by_cases h1 : l.resetTime < now
      · rw [if_pos h1] at h
        simp at h
      · rw [if_neg h1] at h ⊢
        by_cases h2 : MAX_LOCATION_UPDATES_PER_MINUTE ≤ l.count
        · rw [if_pos h2]
        · rw [if_neg h2] at h
          simp at h
  refine ⟨?_, part2, ?_, ?_⟩
  · intro sockId t0 ts m hm hts
    simp only [rateTrace]
    have hck : checkRateLimit m sockId t0 MAX_LOCATION_UPDATES_PER_MINUTE =
        (true, insertA m sockId ⟨1, t0 + 60000⟩) := by
      unfold checkRateLimit
      rw [hm]
    rw [hck]
    obtain ⟨h1, h2⟩ := rateTrace_window_aux sockId ts
      (insertA m sockId ⟨1, t0 + 60000⟩) 1 (t0 + 60000)
      (lookupA_insert_self _ _ _)
      (by simp [MAX_LOCATION_UPDATES_PER_MINUTE]) hts
    constructor
    · rw [h1, List.range_succ_eq_map, List.map_cons, List.map_map]
      have hc0 : decide ((0 : Nat) < MAX_LOCATION_UPDATES_PER_MINUTE) =
          true := by simp [MAX_LOCATION_UPDATES_PER_MINUTE]
      rw [hc0]
      have hc1 : decide ((1 : Nat) + 0 < MAX_LOCATION_UPDATES_PER_MINUTE) =
          true := by simp [MAX_LOCATION_UPDATES_PER_MINUTE]
      refine Eq.trans (congrArg (· :: _) ?_)
        (congrArg (true :: ·) (List.map_congr_left ?_))
      · exact hc1.trans rfl
      · intro i hi
        simp only [Function.comp]
        rw [decide_eq_decide]
        simp only [MAX_LOCATION_UPDATES_PER_MINUTE]
        omega
    · rw [h2]
      have : min (1 + ts.length) MAX_LOCATION_UPDATES_PER_MINUTE =
          min (ts.length + 1) MAX_LOCATION_UPDATES_PER_MINUTE := by omega
      rw [this]
  · intro live st conn p now hval hrej
    simp only [updateLocationH, hval, Bool.not_true, Bool.false_eq_true,
      if_false, hrej, Bool.not_false, if_true]
    exact ⟨trivial, part2 _ _ _ hrej, trivial⟩
  · intro m sockId c r now hm hr
    simp only [checkRateLimit, hm]
    rw [if_pos hr]

/-- Eleven event timestamps inside one window starting at t0 = 1000000. -/
def c7Times : List Nat :=
  [1000000, 1001000, 1002000, 1003000, 1004000, 1005000, 1006000, 1007000,
   1008000, 1009000, 1010000]

theorem rateLimit_window_witness :
    (rateTrace "S1" c7Times []).1 =
      [true, true, true, true, true, true, true, true, true, true, false] ∧
    lookupA (rateTrace "S1" c7Times []).2 "S1" =
      some ⟨10, 1060000⟩ ∧
    checkRateLimit (rateTrace "S1" c7Times []).2 "S1" 1060001
        MAX_LOCATION_UPDATES_PER_MINUTE =
      (true, insertA (rateTrace "S1" c7Times []).2 "S1" ⟨1, 1120001⟩) := by
  have h := rateLimit_window.1 "S1" 1000000
    [1001000, 1002000, 1003000, 1004000, 1005000, 1006000, 1007000, 1008000,
     1009000, 1010000] [] rfl (by decide)
  refine ⟨?_, ?_, ?_⟩
  · exact h.1.trans (by decide)
  · exact h.2.trans (by decide)
  · exact rateLimit_window.2.2.2 (rateTrace "S1" c7Times []).2 "S1" 10
      1060000 1060001 (h.2.trans (by decide)) (by decide)


/-! ### Claim C8 -/

/-- C8: `pingDriver` rejects — emitting one error and changing no state —
any request whose `driverAccountId` is missing or trims to the empty
string, whose latitude is outside [-90, 90], whose longitude is outside
[-180, 180], or whose `passengerCount` has a floored absolute value
outside [1, 20] (so 0 and 21 are rejected); an absent `passengerCount`
defaults to 1 in the delivered `pingReceived`. -/
theorem pingDriver_validation :
    ∀ (live : List String) (st : ServerState) (conn : Conn)
        (p : PingPayload) (now : Nat),
      conn.role = some Role.user →
      (p.driverAccountId = none →
        pingDriverH live st conn p now =
          (st, [.toSocket conn.id (.errorMsg "Missing driverAccountId")])) ∧
      (∀ s, p.driverAccountId = some s → jsTrimStr s = "" →
        pingDriverH live st conn p now =
          (st, [.toSocket conn.id
            (.errorMsg "driverAccountId cannot be empty")])) ∧
      (∀ s la ln, p.driverAccountId = some s → jsTrimStr s ≠ "" →
        p.lat = some la → p.lng = some ln → (la < -90 ∨ 90 < la) →
        pingDriverH live st conn p now =
          (st, [.toSocket conn.id (.errorMsg "Invalid latitude")])) ∧
      (∀ s la ln, p.driverAccountId = some s → jsTrimStr s ≠ "" →
        p.lat = some la → p.lng = some ln → ¬(la < -90 ∨ 90 < la) →
        (ln < -180 ∨ 180 < ln) →
        pingDriverH live st conn p now =
          (st, [.toSocket conn.id (.errorMsg "Invalid longitude")])) ∧
      (∀ s la ln q, p.driverAccountId = some s → jsTrimStr s ≠ "" →
        p.lat = some la → p.lng = some ln → ¬(la < -90 ∨ 90 < la) →
        ¬(ln < -180 ∨ 180 < ln) → p.passengerCount = some q →
        (⌊|q|⌋ : Int) < 1 →
        pingDriverH live st conn p now =
          (st, [.toSocket conn.id
            (.errorMsg "Passenger count must be at least 1")])) ∧
      (∀ s la ln q, p.driverAccountId = some s → jsTrimStr s ≠ "" →
        p.lat = some la → p.lng = some ln → ¬(la < -90 ∨ 90 < la) →
        ¬(ln < -180 ∨ 180 < ln) → p.passengerCount = some q →
        MAX_BOARDING_PASSENGERS < (⌊|q|⌋ : Int) →
        pingDriverH live st conn p now =
          (st, [.toSocket conn.id
            (.errorMsg "Passenger count cannot exceed 20")])) ∧
      (∀ s la ln u dsock driver, p.driverAccountId = some s →
        jsTrimStr s ≠ "" → p.lat = some la → p.lng = some ln →
        ¬(la < -90 ∨ 90 < la) → ¬(ln < -180 ∨ 180 < ln) →
        p.passengerCount = none → p.userAccountId = some u → u ≠ "" →
        lookupA st.drivers s = some driver →
        lookupA st.accountIdToSocketId s = some dsock →
        live.contains dsock = true → driver.disconnected = false →
        (pingDriverH live st conn p now).2 =
          [.toSocket dsock (.pingReceived u la ln 1 now)]) := by
  intro live st conn p now hrole
  have hrole' : (conn.role != some Role.user) = false := by
    simp [hrole]
  refine ⟨?_, ?_, ?_, ?_, ?_, ?_, ?_⟩
  · intro h
    simp [pingDriverH, hrole', h]
  · intro s hs htrim
    simp [pingDriverH, hrole', hs, htrim]
  · intro s la ln hs htrim hla hln hr
    simp only [pingDriverH, hrole', Bool.false_eq_true, if_false, hs, hla,
      hln]
    rw [if_neg (by simp [htrim]), if_pos hr]
  · intro s la ln hs htrim hla hln hr1 hr2
    simp only [pingDriverH, hrole', Bool.false_eq_true, if_false, hs, hla,
      hln]
    rw [if_neg (by simp [htrim]), if_neg hr1, if_pos hr2]
  · intro s la ln q hs htrim hla hln hr1 hr2 hq hq1
    simp only [pingDriverH, hrole', Bool.false_eq_true, if_false, hs, hla,
      hln, hq]
    rw [if_neg (by simp [htrim]), if_neg hr1, if_neg hr2, if_pos hq1]
  · intro s la ln q hs htrim hla hln hr1 hr2 hq hq2
    have hq1 : ¬ ((⌊|q|⌋ : Int) < 1) := by
      simp only [MAX_BOARDING_PASSENGERS] at hq2
      omega
    simp only [pingDriverH, hrole', Bool.false_eq_true, if_false, hs, hla,
      hln, hq]
    rw [if_neg (by simp [htrim]), if_neg hr1, if_neg hr2, if_neg hq1,
      if_pos hq2]
  · intro s la ln u dsock driver hs htrim hla hln hr1 hr2 hq hu hune hdrv
      hsock hlive hdis
    have hu' : truthyStr (some u) = true := by
      simp [truthyStr, bne_iff_ne, hune]
    simp only [pingDriverH, hrole', Bool.false_eq_true, if_false, hs, hla,
      hln, hq, hu, hu', if_true, hdrv, hsock, hlive, hdis, Bool.not_true]
    rw [if_neg (by simp [htrim]), if_neg hr1, if_neg hr2,
      if_neg (by simp [hlive, hdis])]

/-- A live driver `D1` on socket `SD` used by the ping claims. -/
def c9Driver : DriverRec := { c3Driver with socketId := some "SD" }

/-- A live user `U1` on socket `SU` used by the ping claims. -/
def c9User : UserRec :=
  { accountId := "U1", socketId := some "SU", lat := none, lng := none,
    lastActivity := 0, connectedAt := 0, disconnected := false,
    disconnectedAt := none }

/-- A state with user `U1` and driver `D1` both live. -/
def c9State : ServerState :=
  { ServerState.init with
    drivers := [("D1", c9Driver)]
    users := [("U1", c9User)]
    socketToAccountId := [("SU", "U1"), ("SD", "D1")]
    accountIdToSocketId := [("U1", "SU"), ("D1", "SD")] }

theorem pingDriver_validation_witness :
    (pingDriverH ["SU", "SD"] c9State ⟨"SU", some Role.user⟩
        ⟨some "D1", some 14, some 121, some 0, some "U1"⟩ 5000 =
      (c9State, [.toSocket "SU"
        (.errorMsg "Passenger count must be at least 1")])) ∧
    (pingDriverH ["SU", "SD"] c9State ⟨"SU", some Role.user⟩
        ⟨some "D1", some 14, some 121, some 21, some "U1"⟩ 5000 =
      (c9State, [.toSocket "SU"
        (.errorMsg "Passenger count cannot exceed 20")])) ∧
    (pingDriverH ["SU", "SD"] c9State ⟨"SU", some Role.user⟩
        ⟨none, some 14, some 121, none, some "U1"⟩ 5000 =
      (c9State, [.toSocket "SU" (.errorMsg "Missing driverAccountId")])) ∧
    ((pingDriverH ["SU", "SD"] c9State ⟨"SU", some Role.user⟩
        ⟨some "D1", some 14, some 121, none, some "U1"⟩ 5000).2 =
      [.toSocket "SD" (.pingReceived "U1" 14 121 1 5000)]) := by
  have h := pingDriver_validation ["SU", "SD"] c9State
    ⟨"SU", some Role.user⟩ ⟨some "D1", some 14, some 121, some 0, some "U1"⟩
    5000 rfl
  have h21 := pingDriver_validation ["SU", "SD"] c9State
    ⟨"SU", some Role.user⟩ ⟨some "D1", some 14, some 121, some 21, some "U1"⟩
    5000 rfl
  have hmiss := pingDriver_validation ["SU", "SD"] c9State
    ⟨"SU", some Role.user⟩ ⟨none, some 14, some 121, none, some "U1"⟩
    5000 rfl
  have hdef := pingDriver_validation ["SU", "SD"] c9State
    ⟨"SU", some Role.user⟩ ⟨some "D1", some 14, some 121, none, some "U1"⟩
    5000 rfl
  refine ⟨?_, ?_, ?_, ?_⟩
  · exact h.2.2.2.2.1 "D1" 14 121 0 rfl (by decide) rfl rfl (by decide)
      (by decide) rfl (by decide)
  · exact h21.2.2.2.2.2.1 "D1" 14 121 21 rfl (by decide) rfl rfl
      (by decide) (by decide) rfl (by decide)
  · exact hmiss.1 rfl
  · exact hdef.2.2.2.2.2.2 "D1" 14 121 "U1" "SD" c9Driver rfl (by decide)
      rfl rfl (by decide) (by decide) rfl rfl (by decide) (by decide)
      (by decide) (by decide) (by decide)

/-! ### Claim C9 -/

/-- C9: a successful `pingDriver` from user `u` to a live driver produces
exactly one delivery — a `pingReceived { userAccountId, lat, lng,
passengerCount, timestamp }` unicast to the socket currently bound to the
driver, never a broadcast — stores the user's coordinates in `u`'s user
record, and inserts an entry keyed by `u` into the driver's
`waitingPassengers`. -/
theorem pingDriver_unicast_routing :
    ∀ (live : List String) (st : ServerState) (conn : Conn)
        (p : PingPayload) (now : Nat) (u d0 dsock : String) (la ln q : ℚ)
        (driver : DriverRec) (urec : UserRec),
      conn.role = some Role.user →
      lookupA st.socketToAccountId conn.id = some u → u ≠ "" →
      p.userAccountId = none →
      p.driverAccountId = some d0 → jsTrimStr d0 ≠ "" →
      p.lat = some la → p.lng = some ln →
      ¬(la < -90 ∨ 90 < la) → ¬(ln < -180 ∨ 180 < ln) →
      p.passengerCount = some q →
      1 ≤ (⌊|q|⌋ : Int) → (⌊|q|⌋ : Int) ≤ MAX_BOARDING_PASSENGERS →
      lookupA st.users u = some urec →
      lookupA st.drivers d0 = some driver →
      lookupA st.accountIdToSocketId d0 = some dsock →
      live.contains dsock = true → driver.disconnected = false →
      (pingDriverH live st conn p now).2 =
        [.toSocket dsock (.pingReceived u la ln (⌊|q|⌋ : Int).toNat now)] ∧
      (∀ ev : SEvent, Emit.toUsers ev ∉ (pingDriverH live st conn p now).2) ∧
      lookupA (pingDriverH live st conn p now).1.users u =
        some { urec with lat := some la, lng := some ln,
                         lastActivity := now } ∧
      (∃ d', lookupA (pingDriverH live st conn p now).1.drivers d0 =
          some d' ∧
        lookupA d'.waitingPassengers u =
          some ⟨u, la, ln, (⌊|q|⌋ : Int).toNat, now⟩) := by
  intro live st conn p now u d0 dsock la ln q driver urec hrole hsta hune
    hpu hs htrim hla hln hr1 hr2 hq hq1 hq2 husr hdrv hsock hlive hdis
  have hrole' : (conn.role != some Role.user) = false := by simp [hrole]
  have hq1' : ¬ ((⌊|q|⌋ : Int) < 1) := by omega
  have hq2' : ¬ (MAX_BOARDING_PASSENGERS < (⌊|q|⌋ : Int)) := by
    simp only [MAX_BOARDING_PASSENGERS] at hq2 ⊢
    omega
  have hu' : truthyStr (some u) = true := by
    simp [truthyStr, bne_iff_ne, hune]
  have hune' : (u != "") = true := bne_iff_ne.mpr hune
  simp only [pingDriverH, hrole', Bool.false_eq_true, if_false, hs, hla,
    hln, hq, hpu, hsta, hu', truthyStr, hdrv, hsock, hlive, hdis,
    Bool.not_true, hune', husr, if_true]
  simp only [Bool.or_self, Bool.false_eq_true, if_false]
  rw [if_neg (show ¬((jsTrimStr d0 == "") = true) by simp [htrim]),
    if_neg hr1, if_neg hr2, if_neg hq1', if_neg hq2']
  refine ⟨rfl, by simp, ?_, ?_⟩
  · simp [lookupA_insert_self]
  · by_cases hud : d0 = u
    · subst hud
      refine ⟨_, lookupA_insert_self _ _ _, lookupA_insert_self _ _ _⟩
    · refine ⟨_, lookupA_insert_self _ _ _, lookupA_insert_self _ _ _⟩

theorem pingDriver_unicast_routing_witness :
    (pingDriverH ["SU", "SD"] c9State ⟨"SU", some Role.user⟩
        ⟨some "D1", some 14, some 121, some 2, none⟩ 5000).2 =
      [.toSocket "SD" (.pingReceived "U1" 14 121 2 5000)] ∧
    (∀ ev : SEvent, Emit.toUsers ev ∉
      (pingDriverH ["SU", "SD"] c9State ⟨"SU", some Role.user⟩
        ⟨some "D1", some 14, some 121, some 2, none⟩ 5000).2) ∧
    lookupA (pingDriverH ["SU", "SD"] c9State ⟨"SU", some Role.user⟩
        ⟨some "D1", some 14, some 121, some 2, none⟩ 5000).1.users "U1" =
      some { c9User with lat := some 14, lng := some 121,
                         lastActivity := 5000 } ∧
    (∃ d', lookupA (pingDriverH ["SU", "SD"] c9State ⟨"SU", some Role.user⟩
        ⟨some "D1", some 14, some 121, some 2, none⟩ 5000).1.drivers "D1" =
        some d' ∧
      lookupA d'.waitingPassengers "U1" =
        some ⟨"U1", 14, 121, 2, 5000⟩) := by
  have h := pingDriver_unicast_routing ["SU", "SD"] c9State
    ⟨"SU", some Role.user⟩ ⟨some "D1", some 14, some 121, some 2, none⟩
    5000 "U1" "D1" "SD" 14 121 2 c9Driver c9User rfl (by decide)
    (by decide) rfl rfl (by decide) rfl rfl (by decide) (by decide) rfl
    (by decide) (by decide) (by decide) (by decide) (by decide) (by decide)
    (by decide)
  have he : ((⌊|(2 : ℚ)|⌋ : Int)).toNat = 2 := by decide
  rw [he] at h
  exact h

end TaraVel
